import Mathlib

/-!
# Camera navigation of the point-cloud viewer

A shallow embedding of `src/pointcloud_viewer/navigation.cpp`.

* `float`/`double` values are elements of an arbitrary linearly ordered field `R`;
  the transcendental functions of the C++ maths library are supplied through
  `FloatFns R`.  Rounding is not modelled there; the TurntableZoom step is given a
  second time with every `float` result rounded to binary32 (`navigate_zoom_float32`).
* `int` values are elements of `Int`; the sum, the product and the negation that are
  fed with unbounded external values (in `incr_base_movement_speed`, `is_very_far`
  and `glm::abs`) are wrapped to 32 bits.
* The `Navigation` object, the part of the viewport it drives and the signals it
  emits are one record, `Navigation R`; every member function is a function on
  that record.
-/

set_option linter.unusedSectionVars false

namespace PointcloudViewer

/-- The 32-bit two's complement value of an integer: the result of `int` arithmetic. -/
def wrapInt32 (n : Int) : Int := (n + 2147483648) % 4294967296 - 2147483648

/-! ## The maths library (glm) -/

/-- The functions of the C++ maths library that navigation.cpp calls through glm. -/
structure FloatFns (R : Type) where
  /-- The function `std::sqrt`. -/
  sqrt : R → R
  /-- The function `glm::exp2`. -/
  exp2 : R → R
  /-- The function `glm::pow`. -/
  pow : R → R → R
  /-- The function `glm::sin`. -/
  sin : R → R
  /-- The function `glm::cos`. -/
  cos : R → R
  /-- The constant `glm::pi<double>()`. -/
  pi : R

namespace glm

/-- The type `glm::ivec2`. -/
structure ivec2 where
  x : Int
  y : Int
deriving DecidableEq

/-- The type `glm::vec2`. -/
structure vec2 (R : Type) where
  x : R
  y : R
deriving DecidableEq

/-- The type `glm::vec3`. -/
structure vec3 (R : Type) where
  x : R
  y : R
  z : R
deriving DecidableEq

/-- The type `glm::quat`, a quaternion `w + x i + y j + z k` -/
structure quat (R : Type) where
  w : R
  x : R
  y : R
  z : R
deriving DecidableEq

/-- The function `glm::clamp(x, minVal, maxVal)`, which glm defines as `min(max(x, minVal), maxVal)`. -/
def clamp {α : Type} [LinearOrder α] (x minVal maxVal : α) : α :=
  min (max x minVal) maxVal

instance : Sub ivec2 := ⟨fun a b => ⟨a.x - b.x, a.y - b.y⟩⟩

/-- The function `glm::abs` on an `ivec2`: each component `x` becomes `x >= 0 ? x : -x`
in `int` arithmetic, so that the least `int`, whose negation is not representable, is
returned as it is. -/
def ivec2.abs (v : ivec2) : ivec2 := ⟨wrapInt32 |v.x|, wrapInt32 |v.y|⟩

section
variable {R : Type} [LinearOrderedField R]

/-- The function `glm::vec2(s)`: both components equal to `s` -/
def vec2.splat (s : R) : vec2 R := ⟨s, s⟩

/-- The function `glm::vec3(s)`: all components equal to `s` -/
def vec3.splat (s : R) : vec3 R := ⟨s, s, s⟩

/-- The function `glm::vec2(ivec2)`: conversion of the components to float -/
def vec2.ofInt (v : ivec2) : vec2 R := ⟨(v.x : R), (v.y : R)⟩

instance : Add (vec3 R) := ⟨fun a b => ⟨a.x + b.x, a.y + b.y, a.z + b.z⟩⟩
instance : Sub (vec3 R) := ⟨fun a b => ⟨a.x - b.x, a.y - b.y, a.z - b.z⟩⟩
instance : Neg (vec3 R) := ⟨fun a => ⟨-a.x, -a.y, -a.z⟩⟩
instance : HMul (vec3 R) R (vec3 R) := ⟨fun a s => ⟨a.x * s, a.y * s, a.z * s⟩⟩
instance : HMul R (vec3 R) (vec3 R) := ⟨fun s a => ⟨s * a.x, s * a.y, s * a.z⟩⟩
instance : HMul (vec2 R) R (vec2 R) := ⟨fun a s => ⟨a.x * s, a.y * s⟩⟩

/-- The function `glm::clamp` on `vec2`, componentwise -/
def vec2.clamp (x minVal maxVal : vec2 R) : vec2 R :=
  ⟨glm.clamp x.x minVal.x maxVal.x, glm.clamp x.y minVal.y maxVal.y⟩

/-- The function `glm::clamp` on `vec3`, componentwise -/
def vec3.clamp (x minVal maxVal : vec3 R) : vec3 R :=
  ⟨glm.clamp x.x minVal.x maxVal.x, glm.clamp x.y minVal.y maxVal.y,
   glm.clamp x.z minVal.z maxVal.z⟩

/-- The function `glm::dot` on `vec3` -/
def dot (a b : vec3 R) : R := a.x * b.x + a.y * b.y + a.z * b.z

/-- The function `glm::cross` -/
def cross (a b : vec3 R) : vec3 R :=
  ⟨a.y * b.z - b.y * a.z, a.z * b.x - b.z * a.x, a.x * b.y - b.x * a.y⟩

/-- The function `glm::length` on `vec3`: `sqrt(dot(v, v))` -/
def length (F : FloatFns R) (v : vec3 R) : R := F.sqrt (dot v v)

/-- The function `glm::normalize` on `vec3`: `v * inversesqrt(dot(v, v))` -/
def normalize (F : FloatFns R) (v : vec3 R) : vec3 R := v * (1 / F.sqrt (dot v v))

/-- The function `glm::angleAxis(angle, axis)`: `quat(cos(angle/2), axis * sin(angle/2))` -/
def angleAxis (F : FloatFns R) (angle : R) (v : vec3 R) : quat R :=
  let s := F.sin (angle * (1 / 2))
  ⟨F.cos (angle * (1 / 2)), v.x * s, v.y * s, v.z * s⟩

/-- The product `quat * quat`, the Hamilton product -/
instance : Mul (quat R) := ⟨fun p q =>
  ⟨p.w * q.w - p.x * q.x - p.y * q.y - p.z * q.z,
   p.w * q.x + p.x * q.w + p.y * q.z - p.z * q.y,
   p.w * q.y + p.y * q.w + p.z * q.x - p.x * q.z,
   p.w * q.z + p.z * q.w + p.x * q.y - p.y * q.x⟩⟩

/-- The product `quat * vec3`: the vector rotated by the quaternion -/
def quat.rotate (q : quat R) (v : vec3 R) : vec3 R :=
  let QuatVector : vec3 R := ⟨q.x, q.y, q.z⟩
  let uv := cross QuatVector v
  let uuv := cross QuatVector uv
  v + ((uv * q.w) + uuv) * (2 : R)

/-- The function `glm::inverse` on `quat`: `conjugate(q) / dot(q, q)` -/
def quat.inverse (q : quat R) : quat R :=
  let n := q.w * q.w + q.x * q.x + q.y * q.y + q.z * q.z
  ⟨q.w / n, -q.x / n, -q.y / n, -q.z / n⟩

end

end glm

open glm

/-! ## Types declared in headers of the repository -/

/-- Modelled from the spec: `frame_t` of geometry/frame.hpp, whose definition is not
among the sources. "Rigid Frame `F = (p, q)`": a position and an orientation. -/
structure frame_t (R : Type) where
  position : vec3 R
  orientation : quat R
deriving DecidableEq

section
variable {R : Type} [LinearOrderedField R]

/-- Modelled from the spec: `frame_t::operator*(frame_t)` of geometry/frame.hpp.
"Composition `F₁ ∘ F₂` applies `F₂` then `F₁`." -/
def frame_t.mul (a b : frame_t R) : frame_t R :=
  ⟨a.position + a.orientation.rotate b.position, a.orientation * b.orientation⟩

/-- Modelled from the spec: `frame_t::operator*(vec3)` of geometry/frame.hpp,
"`apply(f, v)` (rigid transform of a point)". -/
def frame_t.apply (f : frame_t R) (v : vec3 R) : vec3 R :=
  f.position + f.orientation.rotate v

/-- Modelled from the spec: `frame_t::inverse()` of geometry/frame.hpp. -/
def frame_t.inverse (f : frame_t R) : frame_t R :=
  let qi := f.orientation.inverse
  ⟨-(qi.rotate f.position), qi⟩

end

/-- The camera (camera.hpp); navigation.cpp uses its `frame` only. -/
structure Camera (R : Type) where
  frame : frame_t R
deriving DecidableEq

/-- The scene bounding box `aabb_t`; `is_valid` is the result of `aabb.is_valid()`. -/
structure aabb_t (R : Type) where
  min_point : vec3 R
  max_point : vec3 R
  is_valid : Bool
deriving DecidableEq

/-- The enumeration `Navigation::mode_t`. -/
inductive mode_t where
  | IDLE
  | FPS
  | TURNTABLE_ROTATE
  | TURNTABLE_SHIFT
  | TURNTABLE_ZOOM
deriving DecidableEq

/-- The enumeration `Navigation::distance_t`. -/
inductive distance_t where
  | CLOSE
  | FAR
  | VERY_FAR
deriving DecidableEq

/-- What navigation.cpp needs from the rest of the program: the maths library,
`Camera().frame` (camera.hpp) and `remove_tilt` (geometry/frame.hpp). -/
structure Deps (R : Type) extends FloatFns R where
  /-- The value `Camera().frame`, the frame of a default-constructed camera -/
  default_camera_frame : frame_t R
  /-- The function `remove_tilt(frame)`. -/
  remove_tilt : frame_t R → frame_t R

/-! ## Qt events -/

namespace Qt

/-- The flag `Qt::NoModifier`. -/
abbrev NoModifier : Nat := 0x00000000
/-- The flag `Qt::ShiftModifier`. -/
abbrev ShiftModifier : Nat := 0x02000000
/-- The flag `Qt::ControlModifier`. -/
abbrev ControlModifier : Nat := 0x04000000
/-- The flag `Qt::AltModifier`. -/
abbrev AltModifier : Nat := 0x08000000
/-- The constant `Qt::SHIFT`. -/
abbrev SHIFT : Nat := 0x02000000
/-- The constant `Qt::CTRL`. -/
abbrev CTRL : Nat := 0x04000000

/-- The enumeration `Qt::MouseButton`, as far as navigation.cpp tells buttons apart. -/
inductive MouseButton where
  | LeftButton
  | RightButton
  | MiddleButton
  | OtherButton (code : Nat)
deriving DecidableEq

/-- The enumeration `Qt::MouseEventSource`. -/
inductive MouseEventSource where
  | MouseEventNotSynthesized
  | MouseEventSynthesizedBySystem
  | MouseEventSynthesizedByQt
  | MouseEventSynthesizedByApplication
deriving DecidableEq

/-- The enumeration `Qt::Key`, as far as navigation.cpp tells keys apart. -/
inductive Key where
  | Key_W | Key_Up | Key_S | Key_Down
  | Key_A | Key_Left | Key_D | Key_Right
  | Key_E | Key_Q
  | Key_Shift
  | Key_Enter | Key_Return | Key_Escape
  | Key_F4
  | Key_Other (code : Nat)
deriving DecidableEq

end Qt

/-- What navigation.cpp reads from a `QMouseEvent`. -/
structure QMouseEvent where
  x : Int
  y : Int
  button : Qt.MouseButton
  modifiers : Nat
  source : Qt.MouseEventSource
deriving DecidableEq

/-- What navigation.cpp reads from a `QWheelEvent`. -/
structure QWheelEvent where
  modifiers : Nat
  angleDelta : ivec2
deriving DecidableEq

/-- What navigation.cpp reads from a `QKeyEvent`. -/
structure QKeyEvent where
  key : Qt.Key
  modifiers : Nat
deriving DecidableEq

/-- What navigation.cpp reads from a `QTimerEvent`. -/
structure QTimerEvent where
  timerId : Int
deriving DecidableEq

/-! ## The state -/

/-- The part of the viewport widget that navigation.cpp reads and drives. -/
structure Viewport (R : Type) where
  /-- The result of `viewport->size()`: width and height. -/
  size : ivec2
  /-- The result of `viewport->aabb()`. -/
  aabb : aabb_t R
  /-- Set by `grabMouse(Qt::BlankCursor)`, cleared by `releaseMouse()`. -/
  mouseGrabbed : Bool
  /-- Set by `grabKeyboard()`, cleared by `releaseKeyboard()`. -/
  keyboardGrabbed : Bool
  /-- The argument of the last `setMouseTracking` call. -/
  mouseTracking : Bool
deriving DecidableEq

/-- The calls and signals that leave the `Navigation` object. -/
inductive Effect (R : Type) where
  /-- The call `viewport->update()`, a redraw request. -/
  | update
  /-- The call `viewport->visualization().set_turntable_origin(v)`. -/
  | set_turntable_origin (v : vec3 R)
  /-- The signal `simpleLeftClick(screenspace_pixel)`. -/
  | simpleLeftClick (screenspace_pixel : ivec2)
  /-- The signal `mouse_sensitivity_value_changed(value)`. -/
  | mouse_sensitivity_value_changed (value : Int)
  /-- The cursor warp of `set_mouse_pos`, in viewport coordinates. -/
  | cursor_setPos (mouse_pos : ivec2)
  /-- The call `QApplication::quit()`. -/
  | quit
deriving DecidableEq

/-- The members of `Navigation`, the viewport it points to, the timers of the
object and the effects emitted so far (oldest first). -/
structure Navigation (R : Type) where
  camera : Camera R
  mode : mode_t
  fps_start_frame : frame_t R
  fps_timer : Int
  num_frames_in_fps_mode : Int
  last_mouse_pos : ivec2
  mouse_force : vec2 R
  key_direction : vec3 R
  key_speed : Int
  key_force : vec3 R
  _base_movement_speed : Int
  _mouse_sensitivity_value : Int
  turntable_origin : vec3 R
  _turntable_origin_relative_to_camera : vec3 R
  _last_frame_duration : R
  viewport : Viewport R
  /-- The identifiers of the timers of this object that are running. -/
  liveTimers : List Int
  /-- The effects emitted so far, oldest first. -/
  emitted : List (Effect R)
deriving DecidableEq

/-! ## Services of QObject and of the viewport -/

section
variable {R : Type} [LinearOrderedField R]

/-- The effect `e` leaves the object. -/
def emit (s : Navigation R) (e : Effect R) : Navigation R :=
  { s with emitted := s.emitted ++ [e] }

/-- The call `QObject::startTimer`: `id` is the identifier the timer service hands
out; zero means that no timer could be started. -/
def startTimer (s : Navigation R) (id : Int) : Navigation R :=
  if id = 0 then s else { s with liveTimers := id :: s.liveTimers }

/-- The call `QObject::killTimer(id)`. -/
def killTimer (s : Navigation R) (id : Int) : Navigation R :=
  { s with liveTimers := s.liveTimers.filter (fun t => t ≠ id) }

/-! ## Member functions of `Navigation`, in the order of their dependencies -/

/-- The function `Navigation::enableMode`. -/
def enableMode (s : Navigation R) (mode : mode_t) : Navigation R :=
  if s.mode = mode_t.IDLE then { s with mode := mode } else s

/-- The function `Navigation::find_best_turntable_origin`. -/
def find_best_turntable_origin (s : Navigation R) : vec3 R :=
  let aabb := s.viewport.aabb
  let v := s.camera.frame.apply s._turntable_origin_relative_to_camera
  if aabb.is_valid then vec3.clamp v aabb.min_point aabb.max_point else v

/-- The function `Navigation::disableMode`. -/
def disableMode (s : Navigation R) (mode : mode_t) : Navigation R :=
  if s.mode = mode then
    let s1 : Navigation R :=
      match s.mode with
      | mode_t.TURNTABLE_ZOOM =>
        { s with _turntable_origin_relative_to_camera :=
                   s.camera.frame.inverse.apply s.turntable_origin }
      | mode_t.FPS => s
      | mode_t.TURNTABLE_SHIFT => s
      | mode_t.IDLE => s
      | mode_t.TURNTABLE_ROTATE => s
    let s2 : Navigation R :=
      if mode ≠ mode_t.TURNTABLE_ZOOM then
        emit (emit s1 (Effect.set_turntable_origin (find_best_turntable_origin s1))) Effect.update
      else s1
    { s2 with mode := mode_t.IDLE }
  else s

/-- The function `Navigation::startFpsNavigation`; `timerId` is what `startTimer(40)`
returns. -/
def startFpsNavigation (s : Navigation R) (timerId : Int) : Navigation R :=
  if s.mode = mode_t.IDLE then
    let s1 : Navigation R := { s with fps_start_frame := s.camera.frame }
    let s2 : Navigation R := { startTimer s1 timerId with fps_timer := timerId }
    let s3 : Navigation R :=
      { s2 with key_direction := vec3.splat 0, key_speed := 0, num_frames_in_fps_mode := 0 }
    let s4 := enableMode s3 mode_t.FPS
    { s4 with viewport :=
        { s4.viewport with mouseGrabbed := true, keyboardGrabbed := true, mouseTracking := true } }
  else s

/-- The function `Navigation::stopFpsNavigation`. Its declaration in navigation.hpp gives
`keepNewFrame` a default; the calls without an argument pass `true` below, after the
spec ("left-press in FPS: stopFpsNavigation(keep=true)", likewise Enter and focus-out). -/
def stopFpsNavigation (s : Navigation R) (keepNewFrame : Bool) : Navigation R :=
  if s.mode = mode_t.FPS then
    let s1 : Navigation R :=
      if !keepNewFrame then emit { s with camera := ⟨s.fps_start_frame⟩ } Effect.update else s
    let s2 : Navigation R := { killTimer s1 s1.fps_timer with fps_timer := 0 }
    let s3 : Navigation R := { s2 with key_direction := vec3.splat 0, key_speed := 0 }
    let s4 := disableMode s3 mode_t.FPS
    { s4 with viewport :=
        { s4.viewport with keyboardGrabbed := false, mouseGrabbed := false,
                           mouseTracking := false } }
  else s

/-- The function `Navigation::resetCameraLocation`. -/
def resetCameraLocation (d : Deps R) (s : Navigation R) : Navigation R :=
  let s1 : Navigation R := { s with camera := ⟨d.default_camera_frame⟩ }
  let s2 : Navigation R :=
    { s1 with turntable_origin := vec3.splat 0,
              _turntable_origin_relative_to_camera :=
                d.default_camera_frame.inverse.apply (vec3.splat 0) }
  emit s2 Effect.update

/-- The function `Navigation::resetMovementSpeed`. -/
def resetMovementSpeed (s : Navigation R) : Navigation R :=
  { s with _base_movement_speed := 0 }

/-- The function `Navigation::updateFrameRenderDuration`. -/
def updateFrameRenderDuration (s : Navigation R) (duration : R) : Navigation R :=
  { s with _last_frame_duration := glm.clamp duration (4 / 100) (1 / 10) }

/-- The function `Navigation::tilt_camera`. -/
def tilt_camera (d : Deps R) (s : Navigation R) (factor : R) : Navigation R :=
  let forward := s.camera.frame.orientation.rotate ⟨0, 0, -1⟩
  let angle : R := factor * (1 / 10) / (120 * d.pi)
  let rotation := angleAxis d.toFloatFns angle forward
  emit { s with camera := ⟨{ s.camera.frame with
                              orientation := rotation * s.camera.frame.orientation }⟩ }
    Effect.update

/-- The function `Navigation::reset_camera_tilt`. -/
def reset_camera_tilt (d : Deps R) (s : Navigation R) : Navigation R :=
  emit { s with camera := ⟨d.remove_tilt s.camera.frame⟩ } Effect.update

/-- The function `Navigation::incr_base_movement_speed`; the sum is an `int`. -/
def incr_base_movement_speed (s : Navigation R) (incr : Int) : Navigation R :=
  { s with _base_movement_speed :=
      glm.clamp (wrapInt32 (incr + s._base_movement_speed)) (-6000 - 1200) (6000 - 1200) }

/-- The function `Navigation::mouse_sensitivity`. -/
def mouse_sensitivity (d : Deps R) (s : Navigation R) : R :=
  d.pow (103 / 100) (s._mouse_sensitivity_value : R)

/-- The function `Navigation::base_movement_speed`. -/
def base_movement_speed (d : Deps R) (s : Navigation R) : R :=
  d.pow (101 / 100) ((s._base_movement_speed : R) / 15)

/-- The function `Navigation::update_key_force`; the arguments of `glm::clamp` are in
the order of the source. -/
def update_key_force (d : Deps R) (s : Navigation R) : Navigation R :=
  if glm.length d.toFloatFns s.key_direction > 1 / 2 then
    { s with key_force :=
        glm.normalize d.toFloatFns s.key_direction
          * d.exp2 (glm.clamp (-1 : R) 1 (s.key_speed : R)) * (1 / 2 : R) }
  else
    { s with key_force := vec3.splat 0 }

/-- The function `Navigation::wheelEvent`. -/
def wheelEvent (d : Deps R) (s : Navigation R) (event : QWheelEvent) : Navigation R :=
  if s.mode = mode_t.FPS then
    if event.modifiers = Qt.NoModifier then
      incr_base_movement_speed s event.angleDelta.y
    else if event.modifiers = Qt.CTRL then
      tilt_camera d s (event.angleDelta.y : R)
    else if event.modifiers = Qt.CTRL + Qt.SHIFT then
      tilt_camera d s ((event.angleDelta.y : R) * 4)
    else s
  else s

/-- The function `Navigation::viewport_center`; `/` on `int` truncates. -/
def viewport_center (s : Navigation R) : ivec2 :=
  ⟨Int.tdiv s.viewport.size.x 2, Int.tdiv s.viewport.size.y 2⟩

/-- The lambda `is_very_far` of `Navigation::distance`. -/
def is_very_far (value radius : Int) : Bool :=
  decide (value > Int.tdiv (wrapInt32 (radius * 8)) 10)

/-- The lambda `is_far` of `Navigation::distance`. -/
def is_far (value radius : Int) : Bool :=
  decide (value > Int.tdiv radius 2)

/-- The function `Navigation::distance`. -/
def distance (difference radius : ivec2) : distance_t :=
  let difference := difference.abs
  if is_very_far difference.x radius.x || is_very_far difference.y radius.y then
    distance_t.VERY_FAR
  else if is_far difference.x radius.x || is_far difference.y radius.y then
    distance_t.FAR
  else
    distance_t.CLOSE

/-- The function `Navigation::set_mouse_pos`. -/
def set_mouse_pos (s : Navigation R) (mouse_pos : ivec2) : Navigation R :=
  emit s (Effect.cursor_setPos mouse_pos)

/-- The function `Navigation::navigate`; the arguments of `glm::clamp` are in the order
of the source. -/
def navigate (d : Deps R) (s : Navigation R) : Navigation R :=
  if s.mode = mode_t.IDLE then s
  else
    let view := s.camera.frame
    let forward := view.orientation.rotate ⟨0, 0, -1⟩
    let up := view.orientation.rotate ⟨0, 1, 0⟩
    let right := view.orientation.rotate ⟨1, 0, 0⟩
    let s1 : Navigation R :=
      match s.mode with
      | mode_t.FPS =>
        let movement := up * s.key_force.z + forward * s.key_force.y + right * s.key_force.x
        let orientation :=
          angleAxis d.toFloatFns (-s.mouse_force.x) ⟨0, 0, 1⟩
            * angleAxis d.toFloatFns (-s.mouse_force.y) right * view.orientation
        let position := view.position + movement * base_movement_speed d s
        { s with camera := ⟨⟨position, orientation⟩⟩ }
      | mode_t.TURNTABLE_ROTATE =>
        let factor : R := 1 / 2
        let view1 : frame_t R := { view with position := view.position - s.turntable_origin }
        let view2 : frame_t R :=
          frame_t.mul
            ⟨s.turntable_origin,
             angleAxis d.toFloatFns (factor * -s.mouse_force.x) ⟨0, 0, 1⟩
               * angleAxis d.toFloatFns (factor * -s.mouse_force.y) right⟩
            view1
        { s with camera := ⟨view2⟩ }
      | mode_t.TURNTABLE_SHIFT =>
        let factor : R := 1 / 2
        let shift := up * s.mouse_force.y - right * s.mouse_force.x
        { s with camera := ⟨{ view with position := view.position + factor * shift }⟩,
                 turntable_origin := s.turntable_origin + shift }
      | mode_t.TURNTABLE_ZOOM =>
        let factor : R := 1 / 2
        let previous_zoom := view.position - s.turntable_origin
        let zoom_factor : R := glm.clamp (1 / 2) (3 / 2) (d.exp2 (factor * s.mouse_force.y))
        if zoom_factor * glm.length d.toFloatFns previous_zoom > 1 / 100 then
          { s with camera :=
              ⟨{ view with position := s.turntable_origin + zoom_factor * previous_zoom }⟩ }
        else s
      | mode_t.IDLE => s
    { s1 with mouse_force := vec2.splat 0 }

/-- The function `Navigation::mouseMoveEvent`. -/
def mouseMoveEvent (d : Deps R) (s : Navigation R) (event : QMouseEvent) : Navigation R :=
  let current_mouse_pos : ivec2 := ⟨event.x, event.y⟩
  let handle_event0 : Bool := decide (event.source = Qt.MouseEventSource.MouseEventNotSynthesized)
  let center := viewport_center s
  let s1 : Navigation R :=
    if s.mode = mode_t.FPS then
      if distance (current_mouse_pos - center) center = distance_t.VERY_FAR then
        set_mouse_pos s center
      else s
    else s
  let handle_event : Bool :=
    if s.mode = mode_t.FPS then
      if distance (current_mouse_pos - s.last_mouse_pos) center ≠ distance_t.CLOSE then false
      else handle_event0
    else handle_event0
  let s2 : Navigation R :=
    if handle_event then
      let mouse_force : vec2 R :=
        (vec2.ofInt (current_mouse_pos - s1.last_mouse_pos) : vec2 R) * (4 / 10 : R)
          * mouse_sensitivity d s1 * s1._last_frame_duration
      let mouse_force := vec2.clamp (vec2.splat (-20)) (vec2.splat 20) mouse_force
      let s3 : Navigation R := { s1 with mouse_force := mouse_force }
      if s3.mode = mode_t.TURNTABLE_ROTATE ∨ s3.mode = mode_t.TURNTABLE_SHIFT
          ∨ s3.mode = mode_t.TURNTABLE_ZOOM then
        emit (navigate d s3) Effect.update
      else s3
    else s1
  { s2 with last_mouse_pos := current_mouse_pos }

/-- The function `Navigation::mousePressEvent`. -/
def mousePressEvent (d : Deps R) (s : Navigation R) (event : QMouseEvent) : Navigation R :=
  let s1 : Navigation R :=
    if s.mode = mode_t.FPS then
      let a : Navigation R :=
        if event.button = Qt.MouseButton.LeftButton then stopFpsNavigation s true else s
      let b : Navigation R :=
        if event.button = Qt.MouseButton.RightButton then stopFpsNavigation a false else a
      if event.button = Qt.MouseButton.MiddleButton then
        if event.modifiers = Qt.CTRL then reset_camera_tilt d b else b
      else b
    else s
  if s1.mode = mode_t.IDLE then
    if event.button = Qt.MouseButton.MiddleButton then
      let a : Navigation R :=
        { s1 with turntable_origin := find_best_turntable_origin s1,
                  last_mouse_pos := ⟨event.x, event.y⟩ }
      let b := emit (emit a (Effect.set_turntable_origin (find_best_turntable_origin a)))
        Effect.update
      if event.modifiers = Qt.NoModifier then enableMode b mode_t.TURNTABLE_ROTATE
      else if event.modifiers = Qt.ShiftModifier then enableMode b mode_t.TURNTABLE_SHIFT
      else if event.modifiers = Qt.ControlModifier then enableMode b mode_t.TURNTABLE_ZOOM
      else b
    else if event.button = Qt.MouseButton.LeftButton then
      if event.modifiers = Qt.NoModifier then
        let screenspace_pixel : ivec2 := ⟨event.x, event.y⟩
        emit s1 (Effect.simpleLeftClick screenspace_pixel)
      else s1
    else s1
  else s1

/-- The function `Navigation::mouseReleaseEvent`. -/
def mouseReleaseEvent (s : Navigation R) (event : QMouseEvent) : Navigation R :=
  if event.button = Qt.MouseButton.MiddleButton then
    disableMode
      (disableMode (disableMode s mode_t.TURNTABLE_ROTATE) mode_t.TURNTABLE_SHIFT)
      mode_t.TURNTABLE_ZOOM
  else s

/-- The function `direction_for_key`; the local vector starts at zero (glm
zero-initialises a default-constructed vector unless configured otherwise). -/
def direction_for_key (event : QKeyEvent) : vec3 R :=
  let k0 : vec3 R := ⟨0, 0, 0⟩
  let k1 : vec3 R := if event.key = Qt.Key.Key_W then { k0 with y := k0.y + 1 } else k0
  let k2 : vec3 R := if event.key = Qt.Key.Key_Up then { k1 with y := k1.y + 1 } else k1
  let k3 : vec3 R := if event.key = Qt.Key.Key_S then { k2 with y := k2.y - 1 } else k2
  let k4 : vec3 R := if event.key = Qt.Key.Key_Down then { k3 with y := k3.y - 1 } else k3
  let k5 : vec3 R := if event.key = Qt.Key.Key_A then { k4 with x := k4.x - 1 } else k4
  let k6 : vec3 R := if event.key = Qt.Key.Key_Left then { k5 with x := k5.x - 1 } else k5
  let k7 : vec3 R := if event.key = Qt.Key.Key_D then { k6 with x := k6.x + 1 } else k6
  let k8 : vec3 R := if event.key = Qt.Key.Key_Right then { k7 with x := k7.x + 1 } else k7
  let k9 : vec3 R := if event.key = Qt.Key.Key_E then { k8 with z := k8.z + 1 } else k8
  if event.key = Qt.Key.Key_Q then { k9 with z := k9.z - 1 } else k9

/-- The function `speed_for_key`. -/
def speed_for_key (event : QKeyEvent) : Int :=
  let key_speed : Int := 0
  if event.key = Qt.Key.Key_Shift then key_speed + 1 else key_speed

/-- The function `Navigation::keyPressEvent`. -/
def keyPressEvent (d : Deps R) (s : Navigation R) (event : QKeyEvent) : Navigation R :=
  if s.mode = mode_t.FPS then
    let s1 : Navigation R :=
      if event.modifiers = Qt.NoModifier then
        let a : Navigation R :=
          if event.key = Qt.Key.Key_Enter ∨ event.key = Qt.Key.Key_Return then
            stopFpsNavigation s true
          else s
        if event.key = Qt.Key.Key_Escape then stopFpsNavigation a false else a
      else s
    let s2 : Navigation R :=
      if event.modifiers = Qt.AltModifier then
        if event.key = Qt.Key.Key_F4 then emit (stopFpsNavigation s1 true) Effect.quit else s1
      else s1
    let s3 : Navigation R :=
      { s2 with key_direction := s2.key_direction + direction_for_key event,
                key_speed := s2.key_speed + speed_for_key event }
    update_key_force d s3
  else s

/-- The function `Navigation::keyReleaseEvent`. -/
def keyReleaseEvent (d : Deps R) (s : Navigation R) (event : QKeyEvent) : Navigation R :=
  let s1 : Navigation R :=
    { s with key_direction := s.key_direction - direction_for_key event,
             key_speed := s.key_speed - speed_for_key event }
  update_key_force d s1

/-- The function `Navigation::focusOutEvent`. -/
def focusOutEvent (s : Navigation R) : Navigation R :=
  stopFpsNavigation s true

/-- The function `Navigation::mouse_sensitivity_value_range`. -/
def mouse_sensitivity_value_range : ivec2 := ⟨-100, 100⟩

/-- The function `Navigation::set_mouse_sensitivity_value`. -/
def set_mouse_sensitivity_value (s : Navigation R) (value : Int) : Navigation R :=
  if s._mouse_sensitivity_value = value then s
  else
    let s1 : Navigation R :=
      { s with _mouse_sensitivity_value :=
          glm.clamp value mouse_sensitivity_value_range.x mouse_sensitivity_value_range.y }
    emit s1 (Effect.mouse_sensitivity_value_changed value)

/-- The function `Navigation::timerEvent`. -/
def timerEvent (d : Deps R) (s : Navigation R) (timerEvent : QTimerEvent) : Navigation R :=
  if timerEvent.timerId ≠ s.fps_timer ∨ s.mode ≠ mode_t.FPS then s
  else
    let s1 : Navigation R :=
      if s.num_frames_in_fps_mode = 0 then { s with mouse_force := vec2.splat 0 } else s
    let s2 := navigate d s1
    let s3 := emit s2 Effect.update
    { s3 with num_frames_in_fps_mode := s3.num_frames_in_fps_mode + 1 }

/-! ## Construction -/

/-- Modelled from the spec: the in-class member initialisers of navigation.hpp, which
is not among the sources. "initially Idle", no timer, all accumulators zero, the
camera of a default-constructed `Camera`, no input capture. -/
def Navigation.header_defaults (d : Deps R) (size : ivec2) (aabb : aabb_t R) : Navigation R :=
  { camera := ⟨d.default_camera_frame⟩
    mode := mode_t.IDLE
    fps_start_frame := d.default_camera_frame
    fps_timer := 0
    num_frames_in_fps_mode := 0
    last_mouse_pos := ⟨0, 0⟩
    mouse_force := vec2.splat 0
    key_direction := vec3.splat 0
    key_speed := 0
    key_force := vec3.splat 0
    _base_movement_speed := 0
    _mouse_sensitivity_value := 0
    turntable_origin := vec3.splat 0
    _turntable_origin_relative_to_camera := vec3.splat 0
    _last_frame_duration := 4 / 100
    viewport := { size := size, aabb := aabb, mouseGrabbed := false,
                  keyboardGrabbed := false, mouseTracking := false }
    liveTimers := []
    emitted := [] }

/-- The constructor `Navigation::Navigation`; `stored` is the integer that
`QSettings` holds under `Navigation/mouseSensitivity` (0 when there is none). -/
def Navigation.construct (d : Deps R) (size : ivec2) (aabb : aabb_t R) (stored : Int) :
    Navigation R :=
  { Navigation.header_defaults d size aabb with
    _turntable_origin_relative_to_camera := d.default_camera_frame.inverse.apply (vec3.splat 0)
    _mouse_sensitivity_value := stored }

/-! ## Events and runs -/

/-- Everything that can happen to a `Navigation` object: the event handlers Qt calls,
the public commands, the render-finished signal, and changes of the viewport made by
the rest of the program. -/
inductive Event (R : Type) where
  | startFpsNavigation (timerId : Int)
  | stopFpsNavigation (keepNewFrame : Bool)
  | resetCameraLocation
  | resetMovementSpeed
  | updateFrameRenderDuration (duration : R)
  | wheelEvent (event : QWheelEvent)
  | mouseMoveEvent (event : QMouseEvent)
  | mousePressEvent (event : QMouseEvent)
  | mouseReleaseEvent (event : QMouseEvent)
  | keyPressEvent (event : QKeyEvent)
  | keyReleaseEvent (event : QKeyEvent)
  | focusOutEvent
  | set_mouse_sensitivity_value (value : Int)
  | timerEvent (event : QTimerEvent)
  | viewportResized (size : ivec2)
  | sceneChanged (aabb : aabb_t R)
deriving DecidableEq

/-- One event or command applied to the object. -/
def step (d : Deps R) (s : Navigation R) : Event R → Navigation R
  | Event.startFpsNavigation timerId => startFpsNavigation s timerId
  | Event.stopFpsNavigation keepNewFrame => stopFpsNavigation s keepNewFrame
  | Event.resetCameraLocation => resetCameraLocation d s
  | Event.resetMovementSpeed => resetMovementSpeed s
  | Event.updateFrameRenderDuration duration => updateFrameRenderDuration s duration
  | Event.wheelEvent event => wheelEvent d s event
  | Event.mouseMoveEvent event => mouseMoveEvent d s event
  | Event.mousePressEvent event => mousePressEvent d s event
  | Event.mouseReleaseEvent event => mouseReleaseEvent s event
  | Event.keyPressEvent event => keyPressEvent d s event
  | Event.keyReleaseEvent event => keyReleaseEvent d s event
  | Event.focusOutEvent => focusOutEvent s
  | Event.set_mouse_sensitivity_value value => set_mouse_sensitivity_value s value
  | Event.timerEvent event => timerEvent d s event
  | Event.viewportResized size => { s with viewport := { s.viewport with size := size } }
  | Event.sceneChanged aabb => { s with viewport := { s.viewport with aabb := aabb } }

/-- The events of a list applied in order. -/
def run (d : Deps R) (s : Navigation R) (events : List (Event R)) : Navigation R :=
  events.foldl (step d) s

/-! ## Predicates used in the statements -/

/-- Every event of the list, applied in turn from `s`, leaves the object in FPS mode. -/
def staysInFps (d : Deps R) : Navigation R → List (Event R) → Bool
  | _, [] => true
  | s, e :: es => decide ((step d s e).mode = mode_t.FPS) && staysInFps d (step d s e) es

/-- The timer service never hands out the identifier zero. -/
def timersNonzero (events : List (Event R)) : Prop :=
  ∀ t : Int, Event.startFpsNavigation t ∈ events → t ≠ 0

/-- The FPS tick is live: `fps_timer` is a non-zero identifier of a running timer. -/
def fpsTickLive (s : Navigation R) : Prop :=
  s.fps_timer ≠ 0 ∧ s.fps_timer ∈ s.liveTimers

/-- The viewport holds an input capture: it has grabbed the mouse or the keyboard. -/
def inputCaptured (s : Navigation R) : Prop :=
  s.viewport.mouseGrabbed = true ∨ s.viewport.keyboardGrabbed = true

/-- The link between the mode, the timer and the input capture that every run keeps. -/
def ControlInv (s : Navigation R) : Prop :=
  if s.mode = mode_t.FPS then
    s.fps_timer ≠ 0 ∧ s.liveTimers = [s.fps_timer]
      ∧ s.viewport.mouseGrabbed = true ∧ s.viewport.keyboardGrabbed = true
  else
    s.fps_timer = 0 ∧ s.liveTimers = []
      ∧ s.viewport.mouseGrabbed = false ∧ s.viewport.keyboardGrabbed = false

end

/-! ## A concrete instance for examples -/

/-- A first-order rational approximation of the maths library, exact at the arguments
the examples below evaluate (`sqrt 0 = 0`, `sqrt 1 = 1`, `exp2 0 = 1`, `exp2 1 = 2`). -/
def exampleFns : FloatFns ℚ where
  sqrt := fun x => if x = 0 then 0 else (x + 1) / 2
  exp2 := fun x => 1 + x
  pow := fun b e => 1 + e * (b - 1)
  sin := fun x => x
  cos := fun _ => 1
  pi := 22 / 7

/-- The dependencies of the examples: the identity frame for `Camera().frame` (the spec
calls the reset camera frame the identity) and, for `remove_tilt`, the identity
function, which is what it computes on a frame without roll. -/
def exampleDeps : Deps ℚ where
  toFloatFns := exampleFns
  default_camera_frame := ⟨⟨0, 0, 0⟩, ⟨1, 0, 0, 0⟩⟩
  remove_tilt := fun f => f

/-- A scene without a valid bounding box. -/
def exampleAabb : aabb_t ℚ := ⟨⟨0, 0, 0⟩, ⟨0, 0, 0⟩, false⟩

/-- A freshly constructed object in an 800 x 600 viewport, nothing stored in the settings. -/
def exampleStart : Navigation ℚ :=
  Navigation.construct exampleDeps ⟨800, 600⟩ exampleAabb 0

section
variable {R : Type} [LinearOrderedField R]

/-- An FPS session that moves the camera and stays in FPS: a reset, a roll by the wheel,
a key press, a pointer move, a tick, a tilt reset and a speed reset. -/
def exampleFpsSession : List (Event ℚ) :=
  [Event.resetCameraLocation,
   Event.wheelEvent ⟨Qt.CTRL, ⟨0, 120⟩⟩,
   Event.keyPressEvent ⟨Qt.Key.Key_W, Qt.NoModifier⟩,
   Event.mouseMoveEvent ⟨410, 300, Qt.MouseButton.OtherButton 0, Qt.NoModifier,
     Qt.MouseEventSource.MouseEventNotSynthesized⟩,
   Event.timerEvent ⟨7⟩,
   Event.mousePressEvent ⟨410, 300, Qt.MouseButton.MiddleButton, Qt.CTRL,
     Qt.MouseEventSource.MouseEventNotSynthesized⟩,
   Event.resetMovementSpeed]

/-- The states an object can be in: those a run of events reaches from a freshly
constructed object, the timer service never handing out the identifier zero. -/
def Reachable (d : Deps R) (s : Navigation R) : Prop :=
  ∃ (size : ivec2) (aabb : aabb_t R) (stored : Int) (events : List (Event R)),
    timersNonzero events ∧ run d (Navigation.construct d size aabb stored) events = s

/-- The speed slider after an event, in the words of the spec: a wheel event in FPS
without modifiers adds its vertical angle delta and clamps the sum to [-7200, 4800],
`resetMovementSpeed` sets the slider to zero, every other event leaves it alone. -/
def sliderAfter (s : Navigation R) : Event R → Int
  | Event.wheelEvent event =>
    if s.mode = mode_t.FPS ∧ event.modifiers = Qt.NoModifier then
      max (-7200) (min (s._base_movement_speed + event.angleDelta.y) 4800)
    else s._base_movement_speed
  | Event.resetMovementSpeed => 0
  | _ => s._base_movement_speed

/-- The `int` sum that a wheel event in FPS without modifiers forms with the speed
slider is representable in 32 bits (signed overflow is undefined in C++); no condition
on a wheel event in another mode or with a modifier, nor on any other event. -/
def wheelSumFits (s : Navigation R) : Event R → Prop
  | Event.wheelEvent event =>
    s.mode = mode_t.FPS → event.modifiers = Qt.NoModifier →
      -2147483648 ≤ event.angleDelta.y + s._base_movement_speed ∧
        event.angleDelta.y + s._base_movement_speed ≤ 2147483647
  | _ => True

/-- An FPS session left by a left click while the key W is held down. -/
def exampleLeftClickWhileMoving (timerId : Int) : List (Event R) :=
  [Event.startFpsNavigation timerId,
   Event.keyPressEvent ⟨Qt.Key.Key_W, Qt.NoModifier⟩,
   Event.mousePressEvent ⟨400, 300, Qt.MouseButton.LeftButton, Qt.NoModifier,
     Qt.MouseEventSource.MouseEventNotSynthesized⟩]

/-- A middle-button press without modifiers at pixel (400, 300). -/
def exampleMiddlePress : QMouseEvent :=
  ⟨400, 300, Qt.MouseButton.MiddleButton, Qt.NoModifier,
    Qt.MouseEventSource.MouseEventNotSynthesized⟩

/-- A middle-button press with Ctrl at pixel (400, 300). -/
def exampleCtrlMiddlePress : QMouseEvent :=
  ⟨400, 300, Qt.MouseButton.MiddleButton, Qt.ControlModifier,
    Qt.MouseEventSource.MouseEventNotSynthesized⟩

/-- A middle-button release at pixel (420, 310). -/
def exampleMiddleRelease : QMouseEvent :=
  ⟨420, 310, Qt.MouseButton.MiddleButton, Qt.NoModifier,
    Qt.MouseEventSource.MouseEventNotSynthesized⟩

/-- A wheel event without modifiers, fifty detents up. -/
def exampleWheel : QWheelEvent := ⟨Qt.NoModifier, ⟨0, 6000⟩⟩

/-- The object after `startFpsNavigation`, with timer identifier 7. -/
def exampleFps : Navigation ℚ :=
  run exampleDeps exampleStart [Event.startFpsNavigation 7]

/-- The object after a middle-button press in Idle: a turntable rotation is under way. -/
def exampleRotateDrag : Navigation ℚ :=
  run exampleDeps exampleStart [Event.mousePressEvent exampleMiddlePress]

/-- The object after a Ctrl + middle-button press in Idle: a turntable zoom is under way. -/
def exampleZoomDrag : Navigation ℚ :=
  run exampleDeps exampleStart [Event.mousePressEvent exampleCtrlMiddlePress]

/-! ## Predicates and examples for the integrator and the pointer -/

/-- The squared norm of a quaternion; it is 1 for a unit quaternion. -/
def quatNormSq (q : quat R) : R := q.w * q.w + q.x * q.x + q.y * q.y + q.z * q.z

/-- The function `sqrt` of the library is the real square root at `x`. -/
def sqrtExactAt (F : FloatFns R) (x : R) : Prop :=
  0 ≤ F.sqrt x ∧ F.sqrt x * F.sqrt x = x

/-- The value `mouseMoveEvent` assigns to `mouse_force` for a move to `pos`: the pixel
delta scaled and passed through the clamp call of the source. -/
def assignedMouseForce (d : Deps R) (s : Navigation R) (pos : ivec2) : vec2 R :=
  vec2.clamp (vec2.splat (-20)) (vec2.splat 20)
    ((vec2.ofInt (pos - s.last_mouse_pos) : vec2 R) * (4 / 10 : R)
      * mouse_sensitivity d s * s._last_frame_duration)

/-- The pixel delta of a move to `pos`, scaled by 0.4, the sensitivity and the last frame
duration, before any clamp. -/
def scaledDelta (d : Deps R) (s : Navigation R) (pos : ivec2) : vec2 R :=
  (vec2.ofInt (pos - s.last_mouse_pos) : vec2 R) * (4 / 10 : R)
    * mouse_sensitivity d s * s._last_frame_duration

/-- The move is accepted: not synthesized and, in FPS, with a Close delta. -/
def moveAccepted (s : Navigation R) (event : QMouseEvent) : Prop :=
  event.source = Qt.MouseEventSource.MouseEventNotSynthesized ∧
    (s.mode = mode_t.FPS →
      distance (⟨event.x, event.y⟩ - s.last_mouse_pos) (viewport_center s) = distance_t.CLOSE)

/-- The band of an offset `difference` for the radius `radius`, in the words of the spec,
with exact rational comparisons: VeryFar when a component of the absolute offset exceeds
0.8 times the radius, otherwise Far when one exceeds 0.5 times the radius, otherwise
Close. -/
def distanceSpec (difference radius : ivec2) : distance_t :=
  if ((|difference.x| : Int) : ℚ) > 8 / 10 * (radius.x : ℚ)
      ∨ ((|difference.y| : Int) : ℚ) > 8 / 10 * (radius.y : ℚ) then
    distance_t.VERY_FAR
  else if ((|difference.x| : Int) : ℚ) > 5 / 10 * (radius.x : ℚ)
      ∨ ((|difference.y| : Int) : ℚ) > 5 / 10 * (radius.y : ℚ) then
    distance_t.FAR
  else
    distance_t.CLOSE

/-- The zoom factor of the TurntableZoom branch of `navigate`, as the source computes it. -/
def zoom_factor (d : Deps R) (s : Navigation R) : R :=
  glm.clamp (1 / 2) (3 / 2) (d.exp2 (1 / 2 * s.mouse_force.y))

/-- The TurntableZoom step passes the floor: the zoomed distance exceeds 1e-2. -/
def zoomPassesFloor (d : Deps R) (s : Navigation R) : Prop :=
  zoom_factor d s * glm.length d.toFloatFns (s.camera.frame.position - s.turntable_origin)
    > 1 / 100

/-- The largest natural number whose square is at most `n`, by search. -/
def natSqrt (n : Nat) : Nat :=
  (List.range (n + 1)).foldl (fun r k => if k * k ≤ n then k else r) 0

/-- A rational model of the maths library that is exact where the true functions are
rational: `sqrt` on squares of rationals, `exp2` and `pow` at integer exponents. For
`sin` and `cos` it takes those of the angle `2 atan (x / 2)`, which keeps
`sin² + cos² = 1` and the parities of the two functions. -/
def exactFns : FloatFns ℚ where
  sqrt := fun x => (natSqrt x.num.toNat : ℚ) / (natSqrt x.den : ℚ)
  exp2 := fun x => (2 : ℚ) ^ ⌊x⌋
  pow := fun b e => b ^ ⌊e⌋
  sin := fun x => x / (1 + x * x / 4)
  cos := fun x => (1 - x * x / 4) / (1 + x * x / 4)
  pi := 22 / 7

/-- The dependencies of the examples over `exactFns`: the identity frame for
`Camera().frame` and the identity function for `remove_tilt`. -/
def exactDeps : Deps ℚ where
  toFloatFns := exactFns
  default_camera_frame := ⟨⟨0, 0, 0⟩, ⟨1, 0, 0, 0⟩⟩
  remove_tilt := fun f => f

/-- A state of the object in a given mode, with a given camera frame and `mouse_force`,
the pivot at the origin, everything else as freshly constructed in an 800 x 600
viewport. -/
def exactState (mode : mode_t) (position : vec3 ℚ) (orientation : quat ℚ)
    (mouse_force : vec2 ℚ) : Navigation ℚ :=
  { Navigation.construct exactDeps ⟨800, 600⟩ exampleAabb 0 with
    mode := mode
    camera := ⟨⟨position, orientation⟩⟩
    mouse_force := mouse_force }

/-- A TurntableZoom integrator step about the pivot (0, 0, 0) with the camera on the z
axis at height `z`, unit orientation, and `mouse_force = (0, mfy)`. -/
def exactZoomStep (z mfy : ℚ) : Navigation ℚ :=
  exactState mode_t.TURNTABLE_ZOOM ⟨0, 0, z⟩ ⟨1, 0, 0, 0⟩ ⟨0, mfy⟩

/-- A TurntableRotate integrator step about the pivot (0, 0, 0): camera at (0, -5, 0)
with the unit orientation (3/5, 4/5, 0, 0) and `mouse_force = (1, 2)`. -/
def exactRotateStep : Navigation ℚ :=
  exactState mode_t.TURNTABLE_ROTATE ⟨0, -5, 0⟩ ⟨3 / 5, 4 / 5, 0, 0⟩ ⟨1, 2⟩

/-- An FPS state whose camera has the unit orientation (3/5, 4/5, 0, 0). -/
def exactFpsCamera : Navigation ℚ :=
  exactState mode_t.FPS ⟨1, 2, 3⟩ ⟨3 / 5, 4 / 5, 0, 0⟩ ⟨0, 0⟩

/-- An FPS session in which both Shift keys, held down since before the session, are
released and then W is pressed. -/
def exampleShiftReleases (timerId : Int) : List (Event R) :=
  [Event.startFpsNavigation timerId,
   Event.keyReleaseEvent ⟨Qt.Key.Key_Shift, Qt.NoModifier⟩,
   Event.keyReleaseEvent ⟨Qt.Key.Key_Shift, Qt.NoModifier⟩,
   Event.keyPressEvent ⟨Qt.Key.Key_W, Qt.NoModifier⟩]

/-- A frame took 0.1 s; FPS is entered; the pointer moves 900 pixels to the right and
then 900 pixels back to the left. -/
def exampleFastMoveLeft (timerId : Int) : List (Event R) :=
  [Event.updateFrameRenderDuration (1 / 10),
   Event.startFpsNavigation timerId,
   Event.mouseMoveEvent ⟨900, 0, Qt.MouseButton.OtherButton 0, Qt.NoModifier,
     Qt.MouseEventSource.MouseEventNotSynthesized⟩,
   Event.mouseMoveEvent ⟨0, 0, Qt.MouseButton.OtherButton 0, Qt.NoModifier,
     Qt.MouseEventSource.MouseEventNotSynthesized⟩]

/-- A pointer move to (790, 300), close to the right edge of an 800 x 600 viewport. -/
def exampleMoveToEdge : QMouseEvent :=
  ⟨790, 300, Qt.MouseButton.OtherButton 0, Qt.NoModifier,
    Qt.MouseEventSource.MouseEventNotSynthesized⟩

/-- The pointer move to the centre (400, 300) that the cursor warp produces. -/
def exampleWarpEcho : QMouseEvent :=
  ⟨400, 300, Qt.MouseButton.OtherButton 0, Qt.NoModifier,
    Qt.MouseEventSource.MouseEventNotSynthesized⟩

/-- The FPS state `exampleFps` after the pointer has moved to (790, 300). -/
def exampleAtEdge : Navigation ℚ :=
  mouseMoveEvent exampleDeps exampleFps exampleMoveToEdge

/-- A pointer move to (100, 0). -/
def exampleMoveA : QMouseEvent :=
  ⟨100, 0, Qt.MouseButton.OtherButton 0, Qt.NoModifier,
    Qt.MouseEventSource.MouseEventNotSynthesized⟩

/-- A pointer move to (150, 0). -/
def exampleMoveB : QMouseEvent :=
  ⟨150, 0, Qt.MouseButton.OtherButton 0, Qt.NoModifier,
    Qt.MouseEventSource.MouseEventNotSynthesized⟩

/-- The FPS state `exampleFps` after the pointer move `exampleMoveA`. -/
def exampleAfterMoveA : Navigation ℚ := mouseMoveEvent exampleDeps exampleFps exampleMoveA

/-- The FPS state `exampleFps` after one timer tick, so that the next tick is not the
first of the session. -/
def exampleFpsTicked : Navigation ℚ := timerEvent exampleDeps exampleFps ⟨7⟩

/-- A left-button press without modifiers at pixel (400, 300). -/
def exampleLeftPress : QMouseEvent :=
  ⟨400, 300, Qt.MouseButton.LeftButton, Qt.NoModifier,
    Qt.MouseEventSource.MouseEventNotSynthesized⟩

/-! ## Examples at the limits of `int` and of `float` -/

/-- The FPS session of `exampleFps` after fifty detents up: the slider is at 4800. -/
def exampleFpsTopSpeed : Navigation ℚ :=
  step exampleDeps exampleFps (Event.wheelEvent exampleWheel)

/-- A wheel event without modifiers whose vertical angle delta is the largest `int`. -/
def exampleWheelOverflow : QWheelEvent := ⟨Qt.NoModifier, ⟨0, 2147483647⟩⟩

/-- The integer nearest to `y`, a tie going to the even one. -/
def roundHalfEven (y : ℚ) : Int :=
  if y - ⌊y⌋ < 1 / 2 then ⌊y⌋
  else if 1 / 2 < y - ⌊y⌋ then ⌊y⌋ + 1
  else if ⌊y⌋ % 2 = 0 then ⌊y⌋
  else ⌊y⌋ + 1

/-- The number of halvings that take `n` below 2, that is `⌊log₂ n⌋` for `n ≥ 1`; the
first argument bounds the recursion. -/
def log2Floor : Nat → Nat → Nat
  | 0, _ => 0
  | fuel + 1, n => if n < 2 then 0 else log2Floor fuel (n / 2) + 1

/-- The exponent `e` with `2^e ≤ x < 2^(e+1)`, for positive `x`. -/
def binaryExponent (x : ℚ) : Int :=
  if 1 ≤ x then (log2Floor ⌊x⌋.toNat ⌊x⌋.toNat : Int)
  else if ⌈x⁻¹⌉.toNat ≤ 1 then 0
  else -((log2Floor ⌈x⁻¹⌉.toNat (⌈x⁻¹⌉.toNat - 1) : Int) + 1)

/-- The `float` nearest to `x`: IEEE binary32 with its 24 significant bits, rounding to
nearest, ties to even. Overflow and subnormal numbers are not modelled. -/
def roundFloat32 (x : ℚ) : ℚ :=
  if x = 0 then 0
  else (roundHalfEven (x / (2 : ℚ) ^ (binaryExponent |x| - 23)) : ℚ)
    * (2 : ℚ) ^ (binaryExponent |x| - 23)

/-- The difference of two `glm::vec3` in `float` arithmetic. -/
def vec3.subFloat32 (a b : vec3 ℚ) : vec3 ℚ :=
  ⟨roundFloat32 (a.x - b.x), roundFloat32 (a.y - b.y), roundFloat32 (a.z - b.z)⟩

/-- The sum of two `glm::vec3` in `float` arithmetic. -/
def vec3.addFloat32 (a b : vec3 ℚ) : vec3 ℚ :=
  ⟨roundFloat32 (a.x + b.x), roundFloat32 (a.y + b.y), roundFloat32 (a.z + b.z)⟩

/-- The product of a `float` and a `glm::vec3` in `float` arithmetic. -/
def vec3.scaleFloat32 (c : ℚ) (v : vec3 ℚ) : vec3 ℚ :=
  ⟨roundFloat32 (c * v.x), roundFloat32 (c * v.y), roundFloat32 (c * v.z)⟩

/-- The function `glm::length` on a `glm::vec3` in `float` arithmetic:
`sqrt(v.x * v.x + v.y * v.y + v.z * v.z)`, every result rounded. -/
def lengthFloat32 (F : FloatFns ℚ) (v : vec3 ℚ) : ℚ :=
  roundFloat32 (F.sqrt (roundFloat32 (roundFloat32
    (roundFloat32 (v.x * v.x) + roundFloat32 (v.y * v.y)) + roundFloat32 (v.z * v.z))))

/-- The zoom factor of the TURNTABLE_ZOOM case of `navigate` in `float` arithmetic. -/
def zoom_factor_float32 (d : Deps ℚ) (s : Navigation ℚ) : ℚ :=
  glm.clamp (1 / 2) (3 / 2) (roundFloat32 (d.exp2 (roundFloat32 (1 / 2 * s.mouse_force.y))))

/-- The test `zoom_factor * length(previous_zoom) > 1.e-2f` of the TURNTABLE_ZOOM case of
`navigate` in `float` arithmetic. -/
def zoomPassesFloorFloat32 (d : Deps ℚ) (s : Navigation ℚ) : Prop :=
  roundFloat32 (zoom_factor_float32 d s
      * lengthFloat32 d.toFloatFns
          (vec3.subFloat32 s.camera.frame.position s.turntable_origin))
    > roundFloat32 (1 / 100)

instance (d : Deps ℚ) (s : Navigation ℚ) : Decidable (zoomPassesFloorFloat32 d s) :=
  inferInstanceAs (Decidable (roundFloat32 _ > roundFloat32 (1 / 100)))

/-- The function `Navigation::navigate` in the mode TURNTABLE_ZOOM a second time, over
the rationals with the result of every `float` operation rounded to binary32. -/
def navigate_zoom_float32 (d : Deps ℚ) (s : Navigation ℚ) : Navigation ℚ :=
  let view := s.camera.frame
  let previous_zoom := vec3.subFloat32 view.position s.turntable_origin
  let zoom_factor := zoom_factor_float32 d s
  let position :=
    vec3.addFloat32 s.turntable_origin (vec3.scaleFloat32 zoom_factor previous_zoom)
  let s1 : Navigation ℚ :=
    if zoomPassesFloorFloat32 d s then { s with camera := ⟨{ view with position := position }⟩ }
    else s
  { s1 with mouse_force := vec2.splat 0 }

/-- A TurntableZoom integrator step far from the origin of the world: the pivot at
(1000000, 0, 0), the camera one `float` spacing (1/16) beside it, unit orientation and
`mouse_force = (0, -2)`, which makes the zoom factor 1/2. -/
def exactFarZoom : Navigation ℚ :=
  { exactState mode_t.TURNTABLE_ZOOM ⟨1000000 + 1 / 16, 0, 0⟩ ⟨1, 0, 0, 0⟩ ⟨0, -2⟩ with
    turntable_origin := ⟨1000000, 0, 0⟩ }

/-! # Proofs -/

/-! ## Which members each operation leaves alone -/

/-- An emitted effect changes the record of effects only. -/
@[simp] theorem emit_fields (s : Navigation R) (e : Effect R) :
    (emit s e).camera = s.camera ∧
    (emit s e).mode = s.mode ∧
    (emit s e).fps_start_frame = s.fps_start_frame ∧
    (emit s e).fps_timer = s.fps_timer ∧
    (emit s e).num_frames_in_fps_mode = s.num_frames_in_fps_mode ∧
    (emit s e).last_mouse_pos = s.last_mouse_pos ∧
    (emit s e).mouse_force = s.mouse_force ∧
    (emit s e).key_direction = s.key_direction ∧
    (emit s e).key_speed = s.key_speed ∧
    (emit s e).key_force = s.key_force ∧
    (emit s e)._base_movement_speed = s._base_movement_speed ∧
    (emit s e)._mouse_sensitivity_value = s._mouse_sensitivity_value ∧
    (emit s e).turntable_origin = s.turntable_origin ∧
    (emit s e)._turntable_origin_relative_to_camera = s._turntable_origin_relative_to_camera ∧
    (emit s e)._last_frame_duration = s._last_frame_duration ∧
    (emit s e).viewport = s.viewport ∧
    (emit s e).liveTimers = s.liveTimers ∧
    ((emit s e).emitted = s.emitted ++ [e]) := by
  simp [emit]

/-- Starting a timer changes the running timers only. -/
@[simp] theorem startTimer_fields (s : Navigation R) (id : Int) :
    (startTimer s id).camera = s.camera ∧
    (startTimer s id).mode = s.mode ∧
    (startTimer s id).fps_start_frame = s.fps_start_frame ∧
    (startTimer s id).fps_timer = s.fps_timer ∧
    (startTimer s id).num_frames_in_fps_mode = s.num_frames_in_fps_mode ∧
    (startTimer s id).last_mouse_pos = s.last_mouse_pos ∧
    (startTimer s id).mouse_force = s.mouse_force ∧
    (startTimer s id).key_direction = s.key_direction ∧
    (startTimer s id).key_speed = s.key_speed ∧
    (startTimer s id).key_force = s.key_force ∧
    (startTimer s id)._base_movement_speed = s._base_movement_speed ∧
    (startTimer s id)._mouse_sensitivity_value = s._mouse_sensitivity_value ∧
    (startTimer s id).turntable_origin = s.turntable_origin ∧
    (startTimer s id)._turntable_origin_relative_to_camera = s._turntable_origin_relative_to_camera ∧
    (startTimer s id)._last_frame_duration = s._last_frame_duration ∧
    (startTimer s id).viewport = s.viewport ∧
    (startTimer s id).emitted = s.emitted ∧
    ((startTimer s id).liveTimers = if id = 0 then s.liveTimers else id :: s.liveTimers) := by
  unfold startTimer
  split_ifs <;> simp

/-- Killing a timer changes the running timers only. -/
@[simp] theorem killTimer_fields (s : Navigation R) (id : Int) :
    (killTimer s id).camera = s.camera ∧
    (killTimer s id).mode = s.mode ∧
    (killTimer s id).fps_start_frame = s.fps_start_frame ∧
    (killTimer s id).fps_timer = s.fps_timer ∧
    (killTimer s id).num_frames_in_fps_mode = s.num_frames_in_fps_mode ∧
    (killTimer s id).last_mouse_pos = s.last_mouse_pos ∧
    (killTimer s id).mouse_force = s.mouse_force ∧
    (killTimer s id).key_direction = s.key_direction ∧
    (killTimer s id).key_speed = s.key_speed ∧
    (killTimer s id).key_force = s.key_force ∧
    (killTimer s id)._base_movement_speed = s._base_movement_speed ∧
    (killTimer s id)._mouse_sensitivity_value = s._mouse_sensitivity_value ∧
    (killTimer s id).turntable_origin = s.turntable_origin ∧
    (killTimer s id)._turntable_origin_relative_to_camera = s._turntable_origin_relative_to_camera ∧
    (killTimer s id)._last_frame_duration = s._last_frame_duration ∧
    (killTimer s id).viewport = s.viewport ∧
    (killTimer s id).emitted = s.emitted ∧
    ((killTimer s id).liveTimers = s.liveTimers.filter (fun t => t ≠ id)) := by
  simp [killTimer]

/-- The members after `enableMode`. -/
@[simp] theorem enableMode_fields (s : Navigation R) (m : mode_t) :
    (enableMode s m).camera = s.camera ∧
    (enableMode s m).fps_start_frame = s.fps_start_frame ∧
    (enableMode s m).fps_timer = s.fps_timer ∧
    (enableMode s m).num_frames_in_fps_mode = s.num_frames_in_fps_mode ∧
    (enableMode s m).last_mouse_pos = s.last_mouse_pos ∧
    (enableMode s m).mouse_force = s.mouse_force ∧
    (enableMode s m).key_direction = s.key_direction ∧
    (enableMode s m).key_speed = s.key_speed ∧
    (enableMode s m).key_force = s.key_force ∧
    (enableMode s m)._base_movement_speed = s._base_movement_speed ∧
    (enableMode s m)._mouse_sensitivity_value = s._mouse_sensitivity_value ∧
    (enableMode s m).turntable_origin = s.turntable_origin ∧
    (enableMode s m)._turntable_origin_relative_to_camera = s._turntable_origin_relative_to_camera ∧
    (enableMode s m)._last_frame_duration = s._last_frame_duration ∧
    (enableMode s m).viewport = s.viewport ∧
    (enableMode s m).liveTimers = s.liveTimers ∧
    (enableMode s m).emitted = s.emitted ∧
    ((enableMode s m).mode = if s.mode = mode_t.IDLE then m else s.mode) := by
  unfold enableMode
  split_ifs <;> simp

/-- The function `update_key_force` writes `key_force` only. -/
@[simp] theorem update_key_force_fields (d : Deps R) (s : Navigation R) :
    (update_key_force d s).camera = s.camera ∧
    (update_key_force d s).mode = s.mode ∧
    (update_key_force d s).fps_start_frame = s.fps_start_frame ∧
    (update_key_force d s).fps_timer = s.fps_timer ∧
    (update_key_force d s).num_frames_in_fps_mode = s.num_frames_in_fps_mode ∧
    (update_key_force d s).last_mouse_pos = s.last_mouse_pos ∧
    (update_key_force d s).mouse_force = s.mouse_force ∧
    (update_key_force d s).key_direction = s.key_direction ∧
    (update_key_force d s).key_speed = s.key_speed ∧
    (update_key_force d s)._base_movement_speed = s._base_movement_speed ∧
    (update_key_force d s)._mouse_sensitivity_value = s._mouse_sensitivity_value ∧
    (update_key_force d s).turntable_origin = s.turntable_origin ∧
    (update_key_force d s)._turntable_origin_relative_to_camera = s._turntable_origin_relative_to_camera ∧
    (update_key_force d s)._last_frame_duration = s._last_frame_duration ∧
    (update_key_force d s).viewport = s.viewport ∧
    (update_key_force d s).liveTimers = s.liveTimers ∧
    (update_key_force d s).emitted = s.emitted := by
  unfold update_key_force
  split_ifs <;> simp

/-- The integrator writes the camera, the pivot and `mouse_force` only. -/
@[simp] theorem navigate_fields (d : Deps R) (s : Navigation R) :
    (navigate d s).mode = s.mode ∧
    (navigate d s).fps_start_frame = s.fps_start_frame ∧
    (navigate d s).fps_timer = s.fps_timer ∧
    (navigate d s).num_frames_in_fps_mode = s.num_frames_in_fps_mode ∧
    (navigate d s).last_mouse_pos = s.last_mouse_pos ∧
    (navigate d s).key_direction = s.key_direction ∧
    (navigate d s).key_speed = s.key_speed ∧
    (navigate d s).key_force = s.key_force ∧
    (navigate d s)._base_movement_speed = s._base_movement_speed ∧
    (navigate d s)._mouse_sensitivity_value = s._mouse_sensitivity_value ∧
    (navigate d s)._turntable_origin_relative_to_camera = s._turntable_origin_relative_to_camera ∧
    (navigate d s)._last_frame_duration = s._last_frame_duration ∧
    (navigate d s).viewport = s.viewport ∧
    (navigate d s).liveTimers = s.liveTimers ∧
    (navigate d s).emitted = s.emitted := by
  unfold navigate
  cases h : s.mode <;> simp [h]
  split_ifs <;> simp [h]

/-- The members after `disableMode`. -/
@[simp] theorem disableMode_fields (s : Navigation R) (m : mode_t) :
    (disableMode s m).camera = s.camera ∧
    (disableMode s m).fps_start_frame = s.fps_start_frame ∧
    (disableMode s m).fps_timer = s.fps_timer ∧
    (disableMode s m).num_frames_in_fps_mode = s.num_frames_in_fps_mode ∧
    (disableMode s m).last_mouse_pos = s.last_mouse_pos ∧
    (disableMode s m).mouse_force = s.mouse_force ∧
    (disableMode s m).key_direction = s.key_direction ∧
    (disableMode s m).key_speed = s.key_speed ∧
    (disableMode s m).key_force = s.key_force ∧
    (disableMode s m)._base_movement_speed = s._base_movement_speed ∧
    (disableMode s m)._mouse_sensitivity_value = s._mouse_sensitivity_value ∧
    (disableMode s m).turntable_origin = s.turntable_origin ∧
    (disableMode s m)._last_frame_duration = s._last_frame_duration ∧
    (disableMode s m).viewport = s.viewport ∧
    (disableMode s m).liveTimers = s.liveTimers ∧
    ((disableMode s m).mode = if s.mode = m then mode_t.IDLE else s.mode) ∧
    ((disableMode s m)._turntable_origin_relative_to_camera =
      if s.mode = m ∧ m = mode_t.TURNTABLE_ZOOM then
        s.camera.frame.inverse.apply s.turntable_origin
      else s._turntable_origin_relative_to_camera) ∧
    ((disableMode s m).emitted =
      if s.mode = m ∧ m ≠ mode_t.TURNTABLE_ZOOM then
        s.emitted ++ [Effect.set_turntable_origin (find_best_turntable_origin s), Effect.update]
      else s.emitted) := by
  unfold disableMode
  cases h : s.mode <;> cases m <;> simp [h]

/-- The members after `stopFpsNavigation`. -/
@[simp] theorem stopFpsNavigation_fields (s : Navigation R) (k : Bool) :
    (stopFpsNavigation s k).fps_start_frame = s.fps_start_frame ∧
    (stopFpsNavigation s k).num_frames_in_fps_mode = s.num_frames_in_fps_mode ∧
    (stopFpsNavigation s k).last_mouse_pos = s.last_mouse_pos ∧
    (stopFpsNavigation s k).mouse_force = s.mouse_force ∧
    (stopFpsNavigation s k).key_force = s.key_force ∧
    (stopFpsNavigation s k)._base_movement_speed = s._base_movement_speed ∧
    (stopFpsNavigation s k)._mouse_sensitivity_value = s._mouse_sensitivity_value ∧
    (stopFpsNavigation s k).turntable_origin = s.turntable_origin ∧
    (stopFpsNavigation s k)._turntable_origin_relative_to_camera = s._turntable_origin_relative_to_camera ∧
    (stopFpsNavigation s k)._last_frame_duration = s._last_frame_duration ∧
    ((stopFpsNavigation s k).mode = if s.mode = mode_t.FPS then mode_t.IDLE else s.mode) ∧
    ((stopFpsNavigation s k).camera =
      if s.mode = mode_t.FPS ∧ k = false then ⟨s.fps_start_frame⟩ else s.camera) ∧
    ((stopFpsNavigation s k).fps_timer = if s.mode = mode_t.FPS then 0 else s.fps_timer) ∧
    ((stopFpsNavigation s k).liveTimers =
      if s.mode = mode_t.FPS then s.liveTimers.filter (fun t => t ≠ s.fps_timer)
      else s.liveTimers) ∧
    ((stopFpsNavigation s k).viewport.mouseGrabbed =
      if s.mode = mode_t.FPS then false else s.viewport.mouseGrabbed) ∧
    ((stopFpsNavigation s k).viewport.keyboardGrabbed =
      if s.mode = mode_t.FPS then false else s.viewport.keyboardGrabbed) ∧
    ((stopFpsNavigation s k).viewport.size = s.viewport.size) ∧
    ((stopFpsNavigation s k).viewport.aabb = s.viewport.aabb) := by
  unfold stopFpsNavigation
  by_cases h : s.mode = mode_t.FPS <;> cases k <;> simp [h]

/-- The members after `startFpsNavigation`. -/
@[simp] theorem startFpsNavigation_fields (s : Navigation R) (t : Int) :
    (startFpsNavigation s t).camera = s.camera ∧
    (startFpsNavigation s t).last_mouse_pos = s.last_mouse_pos ∧
    (startFpsNavigation s t).mouse_force = s.mouse_force ∧
    (startFpsNavigation s t).key_force = s.key_force ∧
    (startFpsNavigation s t)._base_movement_speed = s._base_movement_speed ∧
    (startFpsNavigation s t)._mouse_sensitivity_value = s._mouse_sensitivity_value ∧
    (startFpsNavigation s t).turntable_origin = s.turntable_origin ∧
    (startFpsNavigation s t)._turntable_origin_relative_to_camera = s._turntable_origin_relative_to_camera ∧
    (startFpsNavigation s t)._last_frame_duration = s._last_frame_duration ∧
    (startFpsNavigation s t).emitted = s.emitted ∧
    ((startFpsNavigation s t).mode = if s.mode = mode_t.IDLE then mode_t.FPS else s.mode) ∧
    ((startFpsNavigation s t).fps_start_frame =
      if s.mode = mode_t.IDLE then s.camera.frame else s.fps_start_frame) ∧
    ((startFpsNavigation s t).fps_timer = if s.mode = mode_t.IDLE then t else s.fps_timer) ∧
    ((startFpsNavigation s t).liveTimers =
      if s.mode = mode_t.IDLE ∧ t ≠ 0 then t :: s.liveTimers else s.liveTimers) ∧
    ((startFpsNavigation s t).viewport.mouseGrabbed =
      if s.mode = mode_t.IDLE then true else s.viewport.mouseGrabbed) ∧
    ((startFpsNavigation s t).viewport.keyboardGrabbed =
      if s.mode = mode_t.IDLE then true else s.viewport.keyboardGrabbed) ∧
    ((startFpsNavigation s t).viewport.size = s.viewport.size) ∧
    ((startFpsNavigation s t).viewport.aabb = s.viewport.aabb) := by
  unfold startFpsNavigation
  by_cases h : s.mode = mode_t.IDLE <;> by_cases ht : t = 0 <;> simp [h, ht]

/-- The function `tilt_camera` writes the camera and requests a redraw. -/
@[simp] theorem tilt_camera_fields (d : Deps R) (s : Navigation R) (x : R) :
    (tilt_camera d s x).mode = s.mode ∧
    (tilt_camera d s x).fps_start_frame = s.fps_start_frame ∧
    (tilt_camera d s x).fps_timer = s.fps_timer ∧
    (tilt_camera d s x).num_frames_in_fps_mode = s.num_frames_in_fps_mode ∧
    (tilt_camera d s x).last_mouse_pos = s.last_mouse_pos ∧
    (tilt_camera d s x).mouse_force = s.mouse_force ∧
    (tilt_camera d s x).key_direction = s.key_direction ∧
    (tilt_camera d s x).key_speed = s.key_speed ∧
    (tilt_camera d s x).key_force = s.key_force ∧
    (tilt_camera d s x)._base_movement_speed = s._base_movement_speed ∧
    (tilt_camera d s x)._mouse_sensitivity_value = s._mouse_sensitivity_value ∧
    (tilt_camera d s x).turntable_origin = s.turntable_origin ∧
    (tilt_camera d s x)._turntable_origin_relative_to_camera = s._turntable_origin_relative_to_camera ∧
    (tilt_camera d s x)._last_frame_duration = s._last_frame_duration ∧
    (tilt_camera d s x).viewport = s.viewport ∧
    (tilt_camera d s x).liveTimers = s.liveTimers := by
  simp [tilt_camera]

/-- The function `reset_camera_tilt` writes the camera and requests a redraw. -/
@[simp] theorem reset_camera_tilt_fields (d : Deps R) (s : Navigation R) :
    (reset_camera_tilt d s).mode = s.mode ∧
    (reset_camera_tilt d s).fps_start_frame = s.fps_start_frame ∧
    (reset_camera_tilt d s).fps_timer = s.fps_timer ∧
    (reset_camera_tilt d s).num_frames_in_fps_mode = s.num_frames_in_fps_mode ∧
    (reset_camera_tilt d s).last_mouse_pos = s.last_mouse_pos ∧
    (reset_camera_tilt d s).mouse_force = s.mouse_force ∧
    (reset_camera_tilt d s).key_direction = s.key_direction ∧
    (reset_camera_tilt d s).key_speed = s.key_speed ∧
    (reset_camera_tilt d s).key_force = s.key_force ∧
    (reset_camera_tilt d s)._base_movement_speed = s._base_movement_speed ∧
    (reset_camera_tilt d s)._mouse_sensitivity_value = s._mouse_sensitivity_value ∧
    (reset_camera_tilt d s).turntable_origin = s.turntable_origin ∧
    (reset_camera_tilt d s)._turntable_origin_relative_to_camera = s._turntable_origin_relative_to_camera ∧
    (reset_camera_tilt d s)._last_frame_duration = s._last_frame_duration ∧
    (reset_camera_tilt d s).viewport = s.viewport ∧
    (reset_camera_tilt d s).liveTimers = s.liveTimers := by
  simp [reset_camera_tilt]

/-- The function `incr_base_movement_speed` writes the speed slider only. -/
@[simp] theorem incr_base_movement_speed_fields (s : Navigation R) (incr : Int) :
    (incr_base_movement_speed s incr).camera = s.camera ∧
    (incr_base_movement_speed s incr).mode = s.mode ∧
    (incr_base_movement_speed s incr).fps_start_frame = s.fps_start_frame ∧
    (incr_base_movement_speed s incr).fps_timer = s.fps_timer ∧
    (incr_base_movement_speed s incr).num_frames_in_fps_mode = s.num_frames_in_fps_mode ∧
    (incr_base_movement_speed s incr).last_mouse_pos = s.last_mouse_pos ∧
    (incr_base_movement_speed s incr).mouse_force = s.mouse_force ∧
    (incr_base_movement_speed s incr).key_direction = s.key_direction ∧
    (incr_base_movement_speed s incr).key_speed = s.key_speed ∧
    (incr_base_movement_speed s incr).key_force = s.key_force ∧
    (incr_base_movement_speed s incr)._mouse_sensitivity_value = s._mouse_sensitivity_value ∧
    (incr_base_movement_speed s incr).turntable_origin = s.turntable_origin ∧
    (incr_base_movement_speed s incr)._turntable_origin_relative_to_camera = s._turntable_origin_relative_to_camera ∧
    (incr_base_movement_speed s incr)._last_frame_duration = s._last_frame_duration ∧
    (incr_base_movement_speed s incr).viewport = s.viewport ∧
    (incr_base_movement_speed s incr).liveTimers = s.liveTimers ∧
    (incr_base_movement_speed s incr).emitted = s.emitted ∧
    ((incr_base_movement_speed s incr)._base_movement_speed =
      glm.clamp (wrapInt32 (incr + s._base_movement_speed)) (-7200) 4800) := by
  simp [incr_base_movement_speed]

/-- The function `set_mouse_pos` warps the cursor and changes no member. -/
@[simp] theorem set_mouse_pos_fields (s : Navigation R) (p : ivec2) :
    (set_mouse_pos s p).camera = s.camera ∧
    (set_mouse_pos s p).mode = s.mode ∧
    (set_mouse_pos s p).fps_start_frame = s.fps_start_frame ∧
    (set_mouse_pos s p).fps_timer = s.fps_timer ∧
    (set_mouse_pos s p).num_frames_in_fps_mode = s.num_frames_in_fps_mode ∧
    (set_mouse_pos s p).last_mouse_pos = s.last_mouse_pos ∧
    (set_mouse_pos s p).mouse_force = s.mouse_force ∧
    (set_mouse_pos s p).key_direction = s.key_direction ∧
    (set_mouse_pos s p).key_speed = s.key_speed ∧
    (set_mouse_pos s p).key_force = s.key_force ∧
    (set_mouse_pos s p)._base_movement_speed = s._base_movement_speed ∧
    (set_mouse_pos s p)._mouse_sensitivity_value = s._mouse_sensitivity_value ∧
    (set_mouse_pos s p).turntable_origin = s.turntable_origin ∧
    (set_mouse_pos s p)._turntable_origin_relative_to_camera = s._turntable_origin_relative_to_camera ∧
    (set_mouse_pos s p)._last_frame_duration = s._last_frame_duration ∧
    (set_mouse_pos s p).viewport = s.viewport ∧
    (set_mouse_pos s p).liveTimers = s.liveTimers ∧
    ((set_mouse_pos s p).emitted = s.emitted ++ [Effect.cursor_setPos p]) := by
  simp [set_mouse_pos]

/-- The members after `resetCameraLocation`. -/
@[simp] theorem resetCameraLocation_fields (d : Deps R) (s : Navigation R) :
    (resetCameraLocation d s).mode = s.mode ∧
    (resetCameraLocation d s).fps_start_frame = s.fps_start_frame ∧
    (resetCameraLocation d s).fps_timer = s.fps_timer ∧
    (resetCameraLocation d s).num_frames_in_fps_mode = s.num_frames_in_fps_mode ∧
    (resetCameraLocation d s).last_mouse_pos = s.last_mouse_pos ∧
    (resetCameraLocation d s).mouse_force = s.mouse_force ∧
    (resetCameraLocation d s).key_direction = s.key_direction ∧
    (resetCameraLocation d s).key_speed = s.key_speed ∧
    (resetCameraLocation d s).key_force = s.key_force ∧
    (resetCameraLocation d s)._base_movement_speed = s._base_movement_speed ∧
    (resetCameraLocation d s)._mouse_sensitivity_value = s._mouse_sensitivity_value ∧
    (resetCameraLocation d s)._last_frame_duration = s._last_frame_duration ∧
    (resetCameraLocation d s).viewport = s.viewport ∧
    (resetCameraLocation d s).liveTimers = s.liveTimers ∧
    ((resetCameraLocation d s).camera = ⟨d.default_camera_frame⟩) := by
  simp [resetCameraLocation]

/-- The members after `wheelEvent`. -/
@[simp] theorem wheelEvent_fields (d : Deps R) (s : Navigation R) (ev : QWheelEvent) :
    (wheelEvent d s ev).mode = s.mode ∧
    (wheelEvent d s ev).fps_start_frame = s.fps_start_frame ∧
    (wheelEvent d s ev).fps_timer = s.fps_timer ∧
    (wheelEvent d s ev).num_frames_in_fps_mode = s.num_frames_in_fps_mode ∧
    (wheelEvent d s ev).last_mouse_pos = s.last_mouse_pos ∧
    (wheelEvent d s ev).mouse_force = s.mouse_force ∧
    (wheelEvent d s ev).key_direction = s.key_direction ∧
    (wheelEvent d s ev).key_speed = s.key_speed ∧
    (wheelEvent d s ev).key_force = s.key_force ∧
    (wheelEvent d s ev)._mouse_sensitivity_value = s._mouse_sensitivity_value ∧
    (wheelEvent d s ev).turntable_origin = s.turntable_origin ∧
    (wheelEvent d s ev)._turntable_origin_relative_to_camera = s._turntable_origin_relative_to_camera ∧
    (wheelEvent d s ev)._last_frame_duration = s._last_frame_duration ∧
    (wheelEvent d s ev).viewport = s.viewport ∧
    (wheelEvent d s ev).liveTimers = s.liveTimers ∧
    ((wheelEvent d s ev)._base_movement_speed =
      if s.mode = mode_t.FPS ∧ ev.modifiers = Qt.NoModifier then
        glm.clamp (wrapInt32 (ev.angleDelta.y + s._base_movement_speed)) (-7200) 4800
      else s._base_movement_speed) := by
  unfold wheelEvent
  split_ifs <;> simp_all

/-- The members after `mouseMoveEvent`. -/
@[simp] theorem mouseMoveEvent_fields (d : Deps R) (s : Navigation R) (ev : QMouseEvent) :
    (mouseMoveEvent d s ev).mode = s.mode ∧
    (mouseMoveEvent d s ev).fps_start_frame = s.fps_start_frame ∧
    (mouseMoveEvent d s ev).fps_timer = s.fps_timer ∧
    (mouseMoveEvent d s ev).num_frames_in_fps_mode = s.num_frames_in_fps_mode ∧
    (mouseMoveEvent d s ev).key_direction = s.key_direction ∧
    (mouseMoveEvent d s ev).key_speed = s.key_speed ∧
    (mouseMoveEvent d s ev).key_force = s.key_force ∧
    (mouseMoveEvent d s ev)._base_movement_speed = s._base_movement_speed ∧
    (mouseMoveEvent d s ev)._mouse_sensitivity_value = s._mouse_sensitivity_value ∧
    (mouseMoveEvent d s ev)._turntable_origin_relative_to_camera = s._turntable_origin_relative_to_camera ∧
    (mouseMoveEvent d s ev)._last_frame_duration = s._last_frame_duration ∧
    (mouseMoveEvent d s ev).viewport = s.viewport ∧
    (mouseMoveEvent d s ev).liveTimers = s.liveTimers ∧
    ((mouseMoveEvent d s ev).last_mouse_pos = ⟨ev.x, ev.y⟩) := by
  unfold mouseMoveEvent
  simp only []
  split_ifs <;> simp

/-- The members that `mouseReleaseEvent` leaves alone. -/
@[simp] theorem mouseReleaseEvent_fields (s : Navigation R) (ev : QMouseEvent) :
    (mouseReleaseEvent s ev).camera = s.camera ∧
    (mouseReleaseEvent s ev).fps_start_frame = s.fps_start_frame ∧
    (mouseReleaseEvent s ev).fps_timer = s.fps_timer ∧
    (mouseReleaseEvent s ev).num_frames_in_fps_mode = s.num_frames_in_fps_mode ∧
    (mouseReleaseEvent s ev).last_mouse_pos = s.last_mouse_pos ∧
    (mouseReleaseEvent s ev).mouse_force = s.mouse_force ∧
    (mouseReleaseEvent s ev).key_direction = s.key_direction ∧
    (mouseReleaseEvent s ev).key_speed = s.key_speed ∧
    (mouseReleaseEvent s ev).key_force = s.key_force ∧
    (mouseReleaseEvent s ev)._base_movement_speed = s._base_movement_speed ∧
    (mouseReleaseEvent s ev)._mouse_sensitivity_value = s._mouse_sensitivity_value ∧
    (mouseReleaseEvent s ev).turntable_origin = s.turntable_origin ∧
    (mouseReleaseEvent s ev)._last_frame_duration = s._last_frame_duration ∧
    (mouseReleaseEvent s ev).viewport = s.viewport ∧
    (mouseReleaseEvent s ev).liveTimers = s.liveTimers := by
  unfold mouseReleaseEvent
  split_ifs <;> simp

/-- The function `keyReleaseEvent` writes the key accumulators only. -/
@[simp] theorem keyReleaseEvent_fields (d : Deps R) (s : Navigation R) (ev : QKeyEvent) :
    (keyReleaseEvent d s ev).camera = s.camera ∧
    (keyReleaseEvent d s ev).mode = s.mode ∧
    (keyReleaseEvent d s ev).fps_start_frame = s.fps_start_frame ∧
    (keyReleaseEvent d s ev).fps_timer = s.fps_timer ∧
    (keyReleaseEvent d s ev).num_frames_in_fps_mode = s.num_frames_in_fps_mode ∧
    (keyReleaseEvent d s ev).last_mouse_pos = s.last_mouse_pos ∧
    (keyReleaseEvent d s ev).mouse_force = s.mouse_force ∧
    (keyReleaseEvent d s ev)._base_movement_speed = s._base_movement_speed ∧
    (keyReleaseEvent d s ev)._mouse_sensitivity_value = s._mouse_sensitivity_value ∧
    (keyReleaseEvent d s ev).turntable_origin = s.turntable_origin ∧
    (keyReleaseEvent d s ev)._turntable_origin_relative_to_camera = s._turntable_origin_relative_to_camera ∧
    (keyReleaseEvent d s ev)._last_frame_duration = s._last_frame_duration ∧
    (keyReleaseEvent d s ev).viewport = s.viewport ∧
    (keyReleaseEvent d s ev).liveTimers = s.liveTimers ∧
    (keyReleaseEvent d s ev).emitted = s.emitted := by
  simp [keyReleaseEvent]

/-- The members that `set_mouse_sensitivity_value` leaves alone. -/
@[simp] theorem set_mouse_sensitivity_value_fields (s : Navigation R) (v : Int) :
    (set_mouse_sensitivity_value s v).camera = s.camera ∧
    (set_mouse_sensitivity_value s v).mode = s.mode ∧
    (set_mouse_sensitivity_value s v).fps_start_frame = s.fps_start_frame ∧
    (set_mouse_sensitivity_value s v).fps_timer = s.fps_timer ∧
    (set_mouse_sensitivity_value s v).num_frames_in_fps_mode = s.num_frames_in_fps_mode ∧
    (set_mouse_sensitivity_value s v).last_mouse_pos = s.last_mouse_pos ∧
    (set_mouse_sensitivity_value s v).mouse_force = s.mouse_force ∧
    (set_mouse_sensitivity_value s v).key_direction = s.key_direction ∧
    (set_mouse_sensitivity_value s v).key_speed = s.key_speed ∧
    (set_mouse_sensitivity_value s v).key_force = s.key_force ∧
    (set_mouse_sensitivity_value s v)._base_movement_speed = s._base_movement_speed ∧
    (set_mouse_sensitivity_value s v).turntable_origin = s.turntable_origin ∧
    (set_mouse_sensitivity_value s v)._turntable_origin_relative_to_camera = s._turntable_origin_relative_to_camera ∧
    (set_mouse_sensitivity_value s v)._last_frame_duration = s._last_frame_duration ∧
    (set_mouse_sensitivity_value s v).viewport = s.viewport ∧
    (set_mouse_sensitivity_value s v).liveTimers = s.liveTimers := by
  unfold set_mouse_sensitivity_value
  split_ifs <;> simp

/-- The members that `timerEvent` leaves alone. -/
@[simp] theorem timerEvent_fields (d : Deps R) (s : Navigation R) (ev : QTimerEvent) :
    (timerEvent d s ev).mode = s.mode ∧
    (timerEvent d s ev).fps_start_frame = s.fps_start_frame ∧
    (timerEvent d s ev).fps_timer = s.fps_timer ∧
    (timerEvent d s ev).last_mouse_pos = s.last_mouse_pos ∧
    (timerEvent d s ev).key_direction = s.key_direction ∧
    (timerEvent d s ev).key_speed = s.key_speed ∧
    (timerEvent d s ev).key_force = s.key_force ∧
    (timerEvent d s ev)._base_movement_speed = s._base_movement_speed ∧
    (timerEvent d s ev)._mouse_sensitivity_value = s._mouse_sensitivity_value ∧
    (timerEvent d s ev)._turntable_origin_relative_to_camera = s._turntable_origin_relative_to_camera ∧
    (timerEvent d s ev)._last_frame_duration = s._last_frame_duration ∧
    (timerEvent d s ev).viewport = s.viewport ∧
    (timerEvent d s ev).liveTimers = s.liveTimers := by
  unfold timerEvent
  split_ifs <;> simp

/-- The members that `mousePressEvent` leaves alone. -/
@[simp] theorem mousePressEvent_fields (d : Deps R) (s : Navigation R) (ev : QMouseEvent) :
    (mousePressEvent d s ev).fps_start_frame = s.fps_start_frame ∧
    (mousePressEvent d s ev).num_frames_in_fps_mode = s.num_frames_in_fps_mode ∧
    (mousePressEvent d s ev).mouse_force = s.mouse_force ∧
    (mousePressEvent d s ev).key_force = s.key_force ∧
    (mousePressEvent d s ev)._base_movement_speed = s._base_movement_speed ∧
    (mousePressEvent d s ev)._mouse_sensitivity_value = s._mouse_sensitivity_value ∧
    (mousePressEvent d s ev)._turntable_origin_relative_to_camera = s._turntable_origin_relative_to_camera ∧
    (mousePressEvent d s ev)._last_frame_duration = s._last_frame_duration := by
  unfold mousePressEvent
  simp only []
  split_ifs <;> simp

/-- The members that `keyPressEvent` leaves alone. -/
@[simp] theorem keyPressEvent_fields (d : Deps R) (s : Navigation R) (ev : QKeyEvent) :
    (keyPressEvent d s ev).fps_start_frame = s.fps_start_frame ∧
    (keyPressEvent d s ev).num_frames_in_fps_mode = s.num_frames_in_fps_mode ∧
    (keyPressEvent d s ev).last_mouse_pos = s.last_mouse_pos ∧
    (keyPressEvent d s ev).mouse_force = s.mouse_force ∧
    (keyPressEvent d s ev)._base_movement_speed = s._base_movement_speed ∧
    (keyPressEvent d s ev)._mouse_sensitivity_value = s._mouse_sensitivity_value ∧
    (keyPressEvent d s ev).turntable_origin = s.turntable_origin ∧
    (keyPressEvent d s ev)._turntable_origin_relative_to_camera = s._turntable_origin_relative_to_camera ∧
    (keyPressEvent d s ev)._last_frame_duration = s._last_frame_duration := by
  unfold keyPressEvent
  simp only []
  split_ifs <;> simp

/-! ## Escape cancels an FPS session -/

/-- Only `startFpsNavigation` from Idle writes the snapshot `fps_start_frame`. -/
theorem step_fps_start_frame (d : Deps R) (s : Navigation R) (e : Event R)
    (h : s.mode ≠ mode_t.IDLE) : (step d s e).fps_start_frame = s.fps_start_frame := by
  cases e <;> simp [step, focusOutEvent, resetMovementSpeed, updateFrameRenderDuration, h]

/-- A run that stays in FPS ends in FPS with the snapshot it started with. -/
theorem run_staysInFps (d : Deps R) (events : List (Event R)) :
    ∀ s : Navigation R, s.mode = mode_t.FPS → staysInFps d s events = true →
      (run d s events).mode = mode_t.FPS ∧
        (run d s events).fps_start_frame = s.fps_start_frame := by
  induction events with
  | nil => intro s h _; exact ⟨h, rfl⟩
  | cons e es ih =>
    intro s h hs
    simp only [staysInFps, Bool.and_eq_true, decide_eq_true_eq] at hs
    obtain ⟨h1, h2⟩ := hs
    have h3 := ih (step d s e) h1 h2
    have h4 : (step d s e).fps_start_frame = s.fps_start_frame :=
      step_fps_start_frame d s e (by simp [h])
    simpa [run, h4] using h3

/-- Escape without modifiers in FPS: back to Idle, camera restored from the snapshot. -/
theorem keyPressEvent_escape (d : Deps R) (s : Navigation R) (h : s.mode = mode_t.FPS) :
    (keyPressEvent d s ⟨Qt.Key.Key_Escape, Qt.NoModifier⟩).mode = mode_t.IDLE ∧
      (keyPressEvent d s ⟨Qt.Key.Key_Escape, Qt.NoModifier⟩).camera.frame
        = s.fps_start_frame := by
  simp [keyPressEvent, h]

/-- C1. Escape cancels: from any Idle state with camera frame `f`, after
`startFpsNavigation` and any list of events each of which leaves the mode at FPS, an
Escape key press without modifiers leaves the mode at Idle and the camera frame equal
to `f`. -/
theorem escape_cancels (d : Deps R) (s : Navigation R) (f : frame_t R) (timerId : Int)
    (events : List (Event R)) (hIdle : s.mode = mode_t.IDLE) (hf : s.camera.frame = f)
    (hFps : staysInFps d (startFpsNavigation s timerId) events = true) :
    (keyPressEvent d (run d (startFpsNavigation s timerId) events)
        ⟨Qt.Key.Key_Escape, Qt.NoModifier⟩).mode = mode_t.IDLE ∧
      (keyPressEvent d (run d (startFpsNavigation s timerId) events)
        ⟨Qt.Key.Key_Escape, Qt.NoModifier⟩).camera.frame = f := by
  have h0 : (startFpsNavigation s timerId).mode = mode_t.FPS := by simp [hIdle]
  obtain ⟨h1, h2⟩ := run_staysInFps d events _ h0 hFps
  obtain ⟨h3, h4⟩ := keyPressEvent_escape d _ h1
  refine ⟨h3, ?_⟩
  rw [h4, h2]
  simp [hIdle, hf]

/-- The session `exampleFpsSession` stays in FPS and moves the camera away from its
frame at the start; Escape brings that frame back. -/
theorem escape_cancels_witness :
    exampleStart.mode = mode_t.IDLE ∧
    staysInFps exampleDeps (startFpsNavigation exampleStart 7) exampleFpsSession = true ∧
    (run exampleDeps (startFpsNavigation exampleStart 7) exampleFpsSession).camera.frame
      ≠ exampleStart.camera.frame ∧
    (keyPressEvent exampleDeps
        (run exampleDeps (startFpsNavigation exampleStart 7) exampleFpsSession)
        ⟨Qt.Key.Key_Escape, Qt.NoModifier⟩).mode = mode_t.IDLE ∧
    (keyPressEvent exampleDeps
        (run exampleDeps (startFpsNavigation exampleStart 7) exampleFpsSession)
        ⟨Qt.Key.Key_Escape, Qt.NoModifier⟩).camera.frame = exampleStart.camera.frame :=
  ⟨by decide, by decide!, by decide!,
   escape_cancels exampleDeps exampleStart _ 7 exampleFpsSession (by decide) rfl (by decide!)⟩

/-! ## The mode, the timer and the input capture -/


/-- The invariant only looks at the mode, the timer and the two grabs. -/
theorem ControlInv_congr (s s' : Navigation R) (h1 : s'.mode = s.mode)
    (h2 : s'.fps_timer = s.fps_timer) (h3 : s'.liveTimers = s.liveTimers)
    (h4 : s'.viewport = s.viewport) (h : ControlInv s) : ControlInv s' := by
  simpa [ControlInv, h1, h2, h3, h4] using h

/-- A freshly constructed object satisfies the invariant. -/
theorem ControlInv_construct (d : Deps R) (size : ivec2) (aabb : aabb_t R) (stored : Int) :
    ControlInv (Navigation.construct d size aabb stored) := by
  simp [ControlInv, Navigation.construct, Navigation.header_defaults]

/-- The function `stopFpsNavigation` keeps the invariant. -/
theorem ControlInv_stopFpsNavigation (s : Navigation R) (k : Bool) (h : ControlInv s) :
    ControlInv (stopFpsNavigation s k) := by
  by_cases hm : s.mode = mode_t.FPS
  · simp [ControlInv, hm] at h
    simp [ControlInv, hm, h]
  · simpa [ControlInv, hm] using h

/-- The function `startFpsNavigation` keeps the invariant when the timer identifier is not zero. -/
theorem ControlInv_startFpsNavigation (s : Navigation R) (t : Int) (ht : t ≠ 0)
    (h : ControlInv s) : ControlInv (startFpsNavigation s t) := by
  by_cases hm : s.mode = mode_t.IDLE
  · simp [ControlInv, hm] at h
    simp [ControlInv, hm, h, ht]
  · simpa [ControlInv, hm] using h

theorem ControlInv_update (s s' : Navigation R) (h : ControlInv s) (h1 : s'.mode = s.mode)
    (h2 : s'.fps_timer = s.fps_timer) (h3 : s'.liveTimers = s.liveTimers)
    (h4 : s'.viewport = s.viewport) : ControlInv s' :=
  ControlInv_congr s s' h1 h2 h3 h4 h

theorem ControlInv_emit (s : Navigation R) (e : Effect R) (h : ControlInv s) :
    ControlInv (emit s e) :=
  ControlInv_congr s _ (by simp) (by simp) (by simp) (by simp) h

theorem ControlInv_enableMode (s : Navigation R) (m : mode_t) (hm : m ≠ mode_t.FPS)
    (h : ControlInv s) : ControlInv (enableMode s m) := by
  by_cases hi : s.mode = mode_t.IDLE
  · simp [ControlInv, hi] at h
    simp [ControlInv, hi, hm, h]
  · simpa [ControlInv, hi] using h

theorem ControlInv_disableMode (s : Navigation R) (m : mode_t) (hm : m ≠ mode_t.FPS)
    (h : ControlInv s) : ControlInv (disableMode s m) := by
  by_cases hi : s.mode = m
  · have : s.mode ≠ mode_t.FPS := by rw [hi]; exact hm
    simp [ControlInv, this] at h
    simp [ControlInv, hi, h]
  · simpa [ControlInv, hi] using h

/-- The function `mousePressEvent` keeps the invariant. -/
theorem ControlInv_mousePressEvent (d : Deps R) (s : Navigation R) (ev : QMouseEvent)
    (h : ControlInv s) : ControlInv (mousePressEvent d s ev) := by
  obtain ⟨x, y, button, mods, src⟩ := ev
  cases hm : s.mode <;> cases button <;>
    simp [mousePressEvent, hm, ControlInv] at h ⊢ <;>
    (try split_ifs) <;> simp_all

/-- The function `mouseReleaseEvent` keeps the invariant. -/
theorem ControlInv_mouseReleaseEvent (s : Navigation R) (ev : QMouseEvent)
    (h : ControlInv s) : ControlInv (mouseReleaseEvent s ev) := by
  unfold mouseReleaseEvent
  split_ifs
  · cases hm : s.mode <;> simp_all [ControlInv]
  · exact h

/-- The function `keyPressEvent` keeps the invariant. -/
theorem ControlInv_keyPressEvent (d : Deps R) (s : Navigation R) (ev : QKeyEvent)
    (h : ControlInv s) : ControlInv (keyPressEvent d s ev) := by
  obtain ⟨key, mods⟩ := ev
  cases hm : s.mode <;> cases key <;>
    simp [keyPressEvent, hm, ControlInv] at h ⊢ <;>
    (try split_ifs) <;> simp_all

/-- Every event keeps the invariant, as long as no timer gets the identifier zero. -/
theorem ControlInv_step (d : Deps R) (s : Navigation R) (e : Event R)
    (ht : ∀ t, e = Event.startFpsNavigation t → t ≠ 0) (h : ControlInv s) :
    ControlInv (step d s e) := by
  cases e with
  | startFpsNavigation t => exact ControlInv_startFpsNavigation s t (ht t rfl) h
  | stopFpsNavigation k => exact ControlInv_stopFpsNavigation s k h
  | mousePressEvent ev => exact ControlInv_mousePressEvent d s ev h
  | mouseReleaseEvent ev => exact ControlInv_mouseReleaseEvent s ev h
  | keyPressEvent ev => exact ControlInv_keyPressEvent d s ev h
  | focusOutEvent => exact ControlInv_stopFpsNavigation s true h
  | viewportResized sz => simpa [step, ControlInv] using h
  | sceneChanged bb => simpa [step, ControlInv] using h
  | _ =>
    exact ControlInv_congr s _
      (by simp [step, resetMovementSpeed, updateFrameRenderDuration])
      (by simp [step, resetMovementSpeed, updateFrameRenderDuration])
      (by simp [step, resetMovementSpeed, updateFrameRenderDuration])
      (by simp [step, resetMovementSpeed, updateFrameRenderDuration]) h

/-- Every run keeps the invariant, as long as no timer gets the identifier zero. -/
theorem ControlInv_run (d : Deps R) (events : List (Event R)) :
    ∀ s : Navigation R, timersNonzero events → ControlInv s → ControlInv (run d s events) := by
  induction events with
  | nil => intro s _ h; exact h
  | cons e es ih =>
    intro s ht h
    have h1 : ControlInv (step d s e) :=
      ControlInv_step d s e (fun t he => ht t (by simp [he])) h
    have h2 : timersNonzero es := fun t hm => ht t (List.mem_cons_of_mem _ hm)
    exact ih (step d s e) h2 h1

/-! ## Statements about the mode machine and the two sliders -/

/-- Every reachable state satisfies the invariant. -/
theorem Reachable_ControlInv (d : Deps R) (s : Navigation R) (h : Reachable d s) :
    ControlInv s := by
  obtain ⟨size, aabb, stored, events, ht, rfl⟩ := h
  exact ControlInv_run d events _ ht (ControlInv_construct d size aabb stored)

/-- C2. Tick/mode invariant: in every reachable state (the timer service never
returning the handle zero) the mode is one of the five enumerated values, and the FPS
tick is live, that is `fps_timer` is a non-zero handle of a running timer, if and only
if the mode is FPS. -/
theorem tick_live_iff_fps (d : Deps R) (s : Navigation R) (h : Reachable d s) :
    (s.mode = mode_t.IDLE ∨ s.mode = mode_t.FPS ∨ s.mode = mode_t.TURNTABLE_ROTATE
      ∨ s.mode = mode_t.TURNTABLE_SHIFT ∨ s.mode = mode_t.TURNTABLE_ZOOM) ∧
    (fpsTickLive s ↔ s.mode = mode_t.FPS) := by
  have hinv := Reachable_ControlInv d s h
  constructor
  · cases s.mode <;> simp
  · by_cases hm : s.mode = mode_t.FPS
    · simp [ControlInv, hm] at hinv
      simp [fpsTickLive, hm, hinv]
    · simp [ControlInv, hm] at hinv
      simp [fpsTickLive, hm, hinv]

/-- The state `exampleFps` is reachable. -/
theorem exampleFps_reachable : Reachable exampleDeps exampleFps :=
  ⟨⟨800, 600⟩, exampleAabb, 0, [Event.startFpsNavigation 7],
    by simp [timersNonzero], rfl⟩

/-- After `startFpsNavigation` with timer 7 the mode is FPS and timer 7 is live. -/
theorem tick_live_iff_fps_witness :
    Reachable exampleDeps exampleFps ∧ exampleFps.mode = mode_t.FPS ∧
      exampleFps.fps_timer = 7 ∧ exampleFps.liveTimers = [7] ∧
      (fpsTickLive exampleFps ↔ exampleFps.mode = mode_t.FPS) :=
  ⟨exampleFps_reachable, by decide, by decide, by decide,
    (tick_live_iff_fps exampleDeps exampleFps exampleFps_reachable).2⟩

/-- The state `exampleRotateDrag` is reachable. -/
theorem exampleRotateDrag_reachable : Reachable exampleDeps exampleRotateDrag :=
  ⟨⟨800, 600⟩, exampleAabb, 0, [Event.mousePressEvent exampleMiddlePress],
    by simp [timersNonzero], rfl⟩

/-- C3 as stated fails: during a turntable rotation, reached by one middle-button press,
no input capture is held and no FPS tick is scheduled, yet the mode is not Idle. -/
theorem idle_iff_no_capture_fails :
    Reachable exampleDeps exampleRotateDrag ∧
    exampleRotateDrag.mode = mode_t.TURNTABLE_ROTATE ∧
    ¬ inputCaptured exampleRotateDrag ∧ ¬ fpsTickLive exampleRotateDrag ∧
    ¬ (exampleRotateDrag.mode = mode_t.IDLE ↔
        (¬ inputCaptured exampleRotateDrag ∧ ¬ fpsTickLive exampleRotateDrag)) := by
  have hm : exampleRotateDrag.mode = mode_t.TURNTABLE_ROTATE := by decide
  have hc : ¬ inputCaptured exampleRotateDrag := by
    have h1 : exampleRotateDrag.viewport.mouseGrabbed = false := by decide
    have h2 : exampleRotateDrag.viewport.keyboardGrabbed = false := by decide
    simp [inputCaptured, h1, h2]
  have ht : ¬ fpsTickLive exampleRotateDrag := by
    have h1 : exampleRotateDrag.fps_timer = 0 := by decide
    simp [fpsTickLive, h1]
  refine ⟨exampleRotateDrag_reachable, hm, hc, ht, ?_⟩
  intro h
  have := h.2 ⟨hc, ht⟩
  rw [hm] at this
  exact absurd this (by decide)

/-- C3, amended. In every reachable state: if the mode is Idle then neither the mouse nor
the keyboard is grabbed and the FPS tick is not scheduled; and no grab together with no
tick holds exactly when the mode is not FPS, that is in Idle and in the three Turntable
modes alike. -/
theorem no_capture_iff_not_fps (d : Deps R) (s : Navigation R) (h : Reachable d s) :
    (s.mode = mode_t.IDLE → ¬ inputCaptured s ∧ ¬ fpsTickLive s) ∧
    ((¬ inputCaptured s ∧ ¬ fpsTickLive s) ↔ s.mode ≠ mode_t.FPS) := by
  have hinv := Reachable_ControlInv d s h
  by_cases hm : s.mode = mode_t.FPS
  · simp [ControlInv, hm] at hinv
    simp [inputCaptured, fpsTickLive, hm, hinv]
  · simp [ControlInv, hm] at hinv
    simp [inputCaptured, fpsTickLive, hm, hinv]

/-- The amended characterisation at the turntable rotation `exampleRotateDrag`. -/
theorem no_capture_iff_not_fps_witness :
    Reachable exampleDeps exampleRotateDrag ∧
    ((¬ inputCaptured exampleRotateDrag ∧ ¬ fpsTickLive exampleRotateDrag) ↔
      exampleRotateDrag.mode ≠ mode_t.FPS) :=
  ⟨exampleRotateDrag_reachable,
    (no_capture_iff_not_fps exampleDeps exampleRotateDrag exampleRotateDrag_reachable).2⟩

/-- C4 as stated fails: a focus-out event during a turntable rotation leaves the mode
at TurntableRotate. -/
theorem focus_out_keeps_turntable_mode :
    exampleRotateDrag.mode = mode_t.TURNTABLE_ROTATE ∧
    (focusOutEvent exampleRotateDrag).mode = mode_t.TURNTABLE_ROTATE ∧
    ¬ ((focusOutEvent exampleRotateDrag).mode = mode_t.IDLE) := by
  refine ⟨by decide, by decide, by decide⟩

/-- C4, amended. A focus-out event never changes the camera frame; it sets the mode to
Idle when the mode was FPS (and leaves Idle at Idle); in a Turntable mode, as in every
mode other than FPS, it changes nothing at all. -/
theorem focus_out_resets_fps (s : Navigation R) :
    (focusOutEvent s).camera.frame = s.camera.frame ∧
    (focusOutEvent s).mode = (if s.mode = mode_t.FPS then mode_t.IDLE else s.mode) ∧
    (s.mode = mode_t.IDLE ∨ s.mode = mode_t.FPS → (focusOutEvent s).mode = mode_t.IDLE) ∧
    (s.mode ≠ mode_t.FPS → focusOutEvent s = s) := by
  refine ⟨by simp [focusOutEvent], by simp [focusOutEvent], ?_, ?_⟩
  · rintro (h | h) <;> simp [focusOutEvent, h]
  · intro h
    simp [focusOutEvent, stopFpsNavigation, h]

/-- Focus loss in the FPS state `exampleFps`: back to Idle, camera frame kept. -/
theorem focus_out_resets_fps_witness :
    exampleFps.mode = mode_t.FPS ∧ (focusOutEvent exampleFps).mode = mode_t.IDLE ∧
    (focusOutEvent exampleFps).camera.frame = exampleFps.camera.frame :=
  ⟨by decide, (focus_out_resets_fps exampleFps).2.2.1 (Or.inr (by decide)),
    (focus_out_resets_fps exampleFps).1⟩

/-- A press outside Idle keeps the mode or leads to Idle. -/
theorem mousePressEvent_mode_cases (d : Deps R) (s : Navigation R) (ev : QMouseEvent)
    (h : s.mode ≠ mode_t.IDLE) :
    (mousePressEvent d s ev).mode = s.mode ∨ (mousePressEvent d s ev).mode = mode_t.IDLE := by
  obtain ⟨x, y, button, mods, src⟩ := ev
  cases hm : s.mode <;> cases button <;>
    simp [mousePressEvent, hm] at h ⊢ <;>
    (try split_ifs) <;> simp_all

/-- A key press outside Idle keeps the mode or leads to Idle. -/
theorem keyPressEvent_mode_cases (d : Deps R) (s : Navigation R) (ev : QKeyEvent)
    (h : s.mode ≠ mode_t.IDLE) :
    (keyPressEvent d s ev).mode = s.mode ∨ (keyPressEvent d s ev).mode = mode_t.IDLE := by
  obtain ⟨key, mods⟩ := ev
  cases hm : s.mode <;> cases key <;>
    simp [keyPressEvent, hm] at h ⊢ <;>
    (try split_ifs) <;> simp_all

/-- Every event outside Idle keeps the mode or leads to Idle. -/
theorem step_mode_cases (d : Deps R) (s : Navigation R) (e : Event R)
    (h : s.mode ≠ mode_t.IDLE) :
    (step d s e).mode = s.mode ∨ (step d s e).mode = mode_t.IDLE := by
  cases e with
  | mousePressEvent ev => exact mousePressEvent_mode_cases d s ev h
  | keyPressEvent ev => exact keyPressEvent_mode_cases d s ev h
  | mouseReleaseEvent ev =>
    simp only [step, mouseReleaseEvent]
    split_ifs
    · cases hm : s.mode <;> simp_all
    · simp
  | stopFpsNavigation k => by_cases hm : s.mode = mode_t.FPS <;> simp [step, hm]
  | focusOutEvent => by_cases hm : s.mode = mode_t.FPS <;> simp [step, focusOutEvent, hm]
  | _ => simp [step, resetMovementSpeed, updateFrameRenderDuration, h]

/-- C5. Nested mode attempts are ignored: outside Idle `enableMode` changes nothing,
`disableMode m'` changes nothing unless the current mode is `m'`, `startFpsNavigation`
changes nothing, and after any single event or command the mode is the one before or
Idle, never another non-Idle mode. -/
theorem nested_mode_attempts_ignored (d : Deps R) (s : Navigation R) (e : Event R)
    (m m' : mode_t) (timerId : Int) (hM : s.mode ≠ mode_t.IDLE) (hm' : s.mode ≠ m') :
    enableMode s m = s ∧ disableMode s m' = s ∧ startFpsNavigation s timerId = s ∧
      ((step d s e).mode = s.mode ∨ (step d s e).mode = mode_t.IDLE) := by
  refine ⟨by simp [enableMode, hM], by simp [disableMode, hm'],
    by simp [startFpsNavigation, hM], step_mode_cases d s e hM⟩

/-- In FPS a middle-button press starts no turntable drag. -/
theorem nested_mode_attempts_ignored_witness :
    exampleFps.mode = mode_t.FPS ∧
    (step exampleDeps exampleFps (Event.mousePressEvent exampleMiddlePress)).mode = mode_t.FPS ∧
    (enableMode exampleFps mode_t.TURNTABLE_ROTATE = exampleFps ∧
      disableMode exampleFps mode_t.TURNTABLE_ROTATE = exampleFps ∧
      startFpsNavigation exampleFps 8 = exampleFps ∧
      ((step exampleDeps exampleFps (Event.mousePressEvent exampleMiddlePress)).mode
          = exampleFps.mode ∨
        (step exampleDeps exampleFps (Event.mousePressEvent exampleMiddlePress)).mode
          = mode_t.IDLE)) :=
  ⟨by decide, by decide,
    nested_mode_attempts_ignored exampleDeps exampleFps
      (Event.mousePressEvent exampleMiddlePress) mode_t.TURNTABLE_ROTATE
      mode_t.TURNTABLE_ROTATE 8 (by decide) (by decide)⟩

/-- The function `disableMode` does nothing in another mode than the one it names. -/
theorem disableMode_of_ne (s : Navigation R) (m : mode_t) (h : s.mode ≠ m) :
    disableMode s m = s := by
  simp [disableMode, h]

/-- C6 as stated fails: a middle-button release that ends a turntable zoom sets the mode
to Idle but emits nothing, neither the pivot notification nor a redraw request. -/
theorem zoom_release_publishes_nothing :
    exampleZoomDrag.mode = mode_t.TURNTABLE_ZOOM ∧
    (mouseReleaseEvent exampleZoomDrag exampleMiddleRelease).mode = mode_t.IDLE ∧
    (mouseReleaseEvent exampleZoomDrag exampleMiddleRelease).emitted = exampleZoomDrag.emitted := by
  refine ⟨by decide, by decide, by decide!⟩

/-- C6, amended. A middle-button release in a Turntable mode sets the mode to Idle. When
the mode left is TurntableRotate or TurntableShift it publishes
`set_turntable_origin(find_best_turntable_origin())` and then requests a redraw, and
leaves `_turntable_origin_relative_to_camera` alone. When the mode left is
TurntableZoom it refreshes `_turntable_origin_relative_to_camera` to
`inverse(camera.frame) * turntable_origin` and emits nothing. -/
theorem middle_release_leaves_turntable (s : Navigation R) (ev : QMouseEvent)
    (hb : ev.button = Qt.MouseButton.MiddleButton)
    (hm : s.mode = mode_t.TURNTABLE_ROTATE ∨ s.mode = mode_t.TURNTABLE_SHIFT
      ∨ s.mode = mode_t.TURNTABLE_ZOOM) :
    (mouseReleaseEvent s ev).mode = mode_t.IDLE ∧
    (s.mode ≠ mode_t.TURNTABLE_ZOOM →
      (mouseReleaseEvent s ev).emitted =
          s.emitted ++ [Effect.set_turntable_origin (find_best_turntable_origin s),
            Effect.update] ∧
        (mouseReleaseEvent s ev)._turntable_origin_relative_to_camera
          = s._turntable_origin_relative_to_camera) ∧
    (s.mode = mode_t.TURNTABLE_ZOOM →
      (mouseReleaseEvent s ev).emitted = s.emitted ∧
        (mouseReleaseEvent s ev)._turntable_origin_relative_to_camera
          = s.camera.frame.inverse.apply s.turntable_origin) := by
  rcases hm with h | h | h <;> simp [mouseReleaseEvent, hb, h, disableMode_of_ne]

/-- The release that ends the rotation `exampleRotateDrag` publishes the pivot and
requests a redraw. -/
theorem middle_release_leaves_turntable_witness :
    exampleRotateDrag.mode = mode_t.TURNTABLE_ROTATE ∧
    (mouseReleaseEvent exampleRotateDrag exampleMiddleRelease).mode = mode_t.IDLE ∧
    (mouseReleaseEvent exampleRotateDrag exampleMiddleRelease).emitted =
      exampleRotateDrag.emitted ++
        [Effect.set_turntable_origin (find_best_turntable_origin exampleRotateDrag),
          Effect.update] :=
  ⟨by decide,
    (middle_release_leaves_turntable exampleRotateDrag exampleMiddleRelease rfl
      (Or.inl (by decide))).1,
    ((middle_release_leaves_turntable exampleRotateDrag exampleMiddleRelease rfl
      (Or.inl (by decide))).2.1 (by decide)).1⟩

/-- Every event keeps a sensitivity value that lies in [-100, 100] in that range. -/
theorem sensitivity_range_step (d : Deps R) (s : Navigation R) (e : Event R)
    (h : -100 ≤ s._mouse_sensitivity_value ∧ s._mouse_sensitivity_value ≤ 100) :
    -100 ≤ (step d s e)._mouse_sensitivity_value ∧
      (step d s e)._mouse_sensitivity_value ≤ 100 := by
  cases e with
  | set_mouse_sensitivity_value v =>
    simp only [step, set_mouse_sensitivity_value]
    split_ifs
    · exact h
    · simp only [emit_fields, glm.clamp, mouse_sensitivity_value_range]
      omega
  | _ => simpa [step, focusOutEvent, resetMovementSpeed, updateFrameRenderDuration] using h

/-- When the settings hold a value in [-100, 100], every run keeps the sensitivity value
in that range. -/
theorem sensitivity_range_run (d : Deps R) (size : ivec2) (aabb : aabb_t R) (stored : Int)
    (events : List (Event R)) (h : -100 ≤ stored ∧ stored ≤ 100) :
    -100 ≤ (run d (Navigation.construct d size aabb stored) events)._mouse_sensitivity_value ∧
      (run d (Navigation.construct d size aabb stored) events)._mouse_sensitivity_value
        ≤ 100 := by
  have h0 : -100 ≤ (Navigation.construct d size aabb stored)._mouse_sensitivity_value ∧
      (Navigation.construct d size aabb stored)._mouse_sensitivity_value ≤ 100 := by
    simpa [Navigation.construct] using h
  generalize Navigation.construct d size aabb stored = s at h0
  induction events generalizing s with
  | nil => exact h0
  | cons e es ih => exact ih (step d s e) (sensitivity_range_step d s e h0)

/-- C7, the code at the failing input. With 500 stored under
`Navigation/mouseSensitivity` the constructor leaves `_mouse_sensitivity_value` at 500,
outside [-100, 100], and `set_mouse_sensitivity_value(500)` keeps it there. -/
theorem sensitivity_loaded_unclamped (d : Deps R) (size : ivec2) (aabb : aabb_t R) :
    (Navigation.construct d size aabb 500)._mouse_sensitivity_value = 500 ∧
    (set_mouse_sensitivity_value (Navigation.construct d size aabb 500) 500)._mouse_sensitivity_value
      = 500 ∧
    ¬ ((Navigation.construct d size aabb 500)._mouse_sensitivity_value ≤ 100) := by
  simp [Navigation.construct, set_mouse_sensitivity_value]

/-- C8. Sensitivity setter: with any stored value, in particular one in [-100, 100], and
`v` different from it, `set_mouse_sensitivity_value(v)` stores `v` clamped to [-100, 100] and emits exactly
one change notification, which carries the raw `v`; with `v` equal to the stored value
nothing changes and nothing is emitted. -/
theorem sensitivity_setter (s : Navigation R) (v : Int)
    (hv : v ≠ s._mouse_sensitivity_value) :
    (set_mouse_sensitivity_value s v)._mouse_sensitivity_value = max (-100) (min v 100) ∧
    (set_mouse_sensitivity_value s v).emitted
      = s.emitted ++ [Effect.mouse_sensitivity_value_changed v] ∧
    set_mouse_sensitivity_value s s._mouse_sensitivity_value = s := by
  have hv' : ¬ s._mouse_sensitivity_value = v := fun h => hv h.symm
  refine ⟨?_, ?_, ?_⟩
  · simp only [set_mouse_sensitivity_value, if_neg hv', emit_fields, glm.clamp,
      mouse_sensitivity_value_range]
    omega
  · simp [set_mouse_sensitivity_value, hv']
  · simp [set_mouse_sensitivity_value]

/-- Setting 500 on a fresh object stores 100 and notifies 500. -/
theorem sensitivity_setter_witness :
    exampleStart._mouse_sensitivity_value = 0 ∧
    (set_mouse_sensitivity_value exampleStart 500)._mouse_sensitivity_value = 100 ∧
    (set_mouse_sensitivity_value exampleStart 500).emitted
      = [Effect.mouse_sensitivity_value_changed 500] ∧
    ((set_mouse_sensitivity_value exampleStart 500)._mouse_sensitivity_value
        = max (-100) (min 500 100) ∧
      (set_mouse_sensitivity_value exampleStart 500).emitted
        = exampleStart.emitted ++ [Effect.mouse_sensitivity_value_changed 500] ∧
      set_mouse_sensitivity_value exampleStart exampleStart._mouse_sensitivity_value
        = exampleStart) :=
  ⟨by decide, by decide, by decide,
    sensitivity_setter exampleStart 500 (by decide)⟩

/-- A representable sum is not changed by the wrap. -/
theorem wrapInt32_of_fits (n : Int) (h1 : -2147483648 ≤ n) (h2 : n ≤ 2147483647) :
    wrapInt32 n = n := by
  unfold wrapInt32
  omega

/-- The clamp of `incr_base_movement_speed` lands in [-7200, 4800]. -/
theorem clamp_int_range (n : Int) :
    -7200 ≤ glm.clamp n (-7200) 4800 ∧ glm.clamp n (-7200) 4800 ≤ 4800 := by
  unfold glm.clamp
  omega

/-- C9 as stated fails: in FPS with the slider at 4800, a wheel event without modifiers
whose angle delta is the largest `int` overflows the `int` sum; the wrapped sum is
negative and is clamped to -7200, whereas the clamp of the sum is 4800. -/
theorem movement_speed_slider_overflow :
    exampleFpsTopSpeed.mode = mode_t.FPS ∧
    exampleFpsTopSpeed._base_movement_speed = 4800 ∧
    exampleWheelOverflow.modifiers = Qt.NoModifier ∧
    exampleWheelOverflow.angleDelta.y = 2147483647 ∧
    (step exampleDeps exampleFpsTopSpeed
      (Event.wheelEvent exampleWheelOverflow))._base_movement_speed = -7200 ∧
    sliderAfter exampleFpsTopSpeed (Event.wheelEvent exampleWheelOverflow) = 4800 := by
  decide

/-- C9, amended. Movement-speed slider: starting from a value in [-7200, 4800], after
every event the slider is again in [-7200, 4800]; and the slider after the event is what
the spec says (the clamped sum for a wheel event in FPS without modifiers, zero for
`resetMovementSpeed`, unchanged for every other event, a wheel event in another mode or
with a modifier included), provided that the `int` sum of a wheel event in FPS without
modifiers is representable. -/
theorem movement_speed_slider (d : Deps R) (s : Navigation R) (e : Event R)
    (hr : -7200 ≤ s._base_movement_speed ∧ s._base_movement_speed ≤ 4800) :
    (wheelSumFits s e → (step d s e)._base_movement_speed = sliderAfter s e) ∧
    -7200 ≤ (step d s e)._base_movement_speed ∧ (step d s e)._base_movement_speed ≤ 4800 := by
  cases e with
  | wheelEvent ev =>
    simp only [step, wheelEvent_fields, sliderAfter, wheelSumFits]
    split_ifs with h
    · refine ⟨?_, clamp_int_range _⟩
      intro hfit
      obtain ⟨h1, h2⟩ := hfit h.1 h.2
      rw [wrapInt32_of_fits _ h1 h2]
      unfold glm.clamp
      omega
    · exact ⟨fun _ => rfl, hr⟩
  | resetMovementSpeed => simp [step, resetMovementSpeed, sliderAfter]
  | _ => simpa [step, sliderAfter, focusOutEvent, updateFrameRenderDuration] using hr

/-- Fifty detents up in FPS take the slider from 0 to the upper bound 4800; the same
wheel event during a turntable rotation, where nothing is required of the sum, leaves
the slider alone. -/
theorem movement_speed_slider_witness :
    exampleFps.mode = mode_t.FPS ∧ exampleFps._base_movement_speed = 0 ∧
    wheelSumFits exampleFps (Event.wheelEvent exampleWheel) ∧
    (step exampleDeps exampleFps (Event.wheelEvent exampleWheel))._base_movement_speed
      = 4800 ∧
    (step exampleDeps exampleFps (Event.wheelEvent exampleWheel))._base_movement_speed
      = sliderAfter exampleFps (Event.wheelEvent exampleWheel) ∧
    exampleRotateDrag.mode = mode_t.TURNTABLE_ROTATE ∧
    (step exampleDeps exampleRotateDrag
      (Event.wheelEvent exampleWheelOverflow))._base_movement_speed
      = exampleRotateDrag._base_movement_speed :=
  ⟨by decide, by decide, fun _ _ => by decide, by decide,
    (movement_speed_slider exampleDeps exampleFps (Event.wheelEvent exampleWheel)
      (by decide)).1 (fun _ _ => by decide),
    by decide,
    (movement_speed_slider exampleDeps exampleRotateDrag
      (Event.wheelEvent exampleWheelOverflow) (by decide)).1
      (fun h => absurd h (by decide))⟩

/-- The sum of two vectors, componentwise. -/
theorem vec3_add_def (a b : vec3 R) : a + b = ⟨a.x + b.x, a.y + b.y, a.z + b.z⟩ := rfl

/-- The difference of two vectors, componentwise. -/
theorem vec3_sub_def (a b : vec3 R) : a - b = ⟨a.x - b.x, a.y - b.y, a.z - b.z⟩ := rfl

/-- A vector times a scalar, componentwise. -/
theorem vec3_mul_def (a : vec3 R) (c : R) : a * c = ⟨a.x * c, a.y * c, a.z * c⟩ := rfl

/-- In FPS with no key held, pressing W sets `key_force` to half a unit along y. -/
theorem keyPressEvent_W (d : Deps R) (s : Navigation R) (h1 : d.sqrt 1 = 1)
    (h2 : d.exp2 0 = 1) (hm : s.mode = mode_t.FPS) (hd : s.key_direction = ⟨0, 0, 0⟩)
    (hs : s.key_speed = 0) :
    (keyPressEvent d s ⟨Qt.Key.Key_W, Qt.NoModifier⟩).key_force = ⟨0, 1 / 2, 0⟩ ∧
    (keyPressEvent d s ⟨Qt.Key.Key_W, Qt.NoModifier⟩).mode = mode_t.FPS := by
  have hc : glm.clamp (-1 : R) 1 0 = 0 := by simp [glm.clamp]
  constructor
  · simp [keyPressEvent, hm, hd, hs, update_key_force, direction_for_key, speed_for_key,
      glm.length, glm.normalize, glm.dot, vec3_add_def, vec3_mul_def, h1, h2, hc]
    norm_num
  · simp [keyPressEvent, hm]

/-- A left click in FPS zeroes `key_direction` and leaves `key_force` as it was. -/
theorem mousePressEvent_left_in_fps (d : Deps R) (s : Navigation R) (x y : Int)
    (hm : s.mode = mode_t.FPS) :
    (mousePressEvent d s ⟨x, y, Qt.MouseButton.LeftButton, Qt.NoModifier,
        Qt.MouseEventSource.MouseEventNotSynthesized⟩).key_direction = ⟨0, 0, 0⟩ ∧
    (mousePressEvent d s ⟨x, y, Qt.MouseButton.LeftButton, Qt.NoModifier,
        Qt.MouseEventSource.MouseEventNotSynthesized⟩).key_force = s.key_force := by
  constructor
  · simp [mousePressEvent, hm, stopFpsNavigation, vec3.splat]
  · simp

/-- C10, the code at the failing input. In any maths library with `sqrt 0 = 0`,
`sqrt 1 = 1` and `exp2 0 = 1`: after `startFpsNavigation`, a press of W and a left
click, `key_direction` is zero, so its length is at most 0.5, while `key_force` is
still (0, 0.5, 0) and not zero. -/
theorem key_force_stale_after_stop (d : Deps R) (size : ivec2) (aabb : aabb_t R)
    (stored timerId : Int) (h0 : d.sqrt 0 = 0) (h1 : d.sqrt 1 = 1) (h2 : d.exp2 0 = 1) :
    (run d (Navigation.construct d size aabb stored)
        (exampleLeftClickWhileMoving timerId)).key_direction = ⟨0, 0, 0⟩ ∧
    glm.length d.toFloatFns (run d (Navigation.construct d size aabb stored)
        (exampleLeftClickWhileMoving timerId)).key_direction ≤ 1 / 2 ∧
    (run d (Navigation.construct d size aabb stored)
        (exampleLeftClickWhileMoving timerId)).key_force = ⟨0, 1 / 2, 0⟩ ∧
    (run d (Navigation.construct d size aabb stored)
        (exampleLeftClickWhileMoving timerId)).key_force ≠ ⟨0, 0, 0⟩ := by
  have hs1 : (startFpsNavigation (Navigation.construct d size aabb stored) timerId).mode
      = mode_t.FPS := by
    simp [Navigation.construct, Navigation.header_defaults]
  have hk1 : (startFpsNavigation (Navigation.construct d size aabb stored) timerId).key_direction
      = ⟨0, 0, 0⟩ := by
    simp [startFpsNavigation, Navigation.construct, Navigation.header_defaults, vec3.splat]
  have hk2 : (startFpsNavigation (Navigation.construct d size aabb stored) timerId).key_speed
      = 0 := by
    simp [startFpsNavigation, Navigation.construct, Navigation.header_defaults]
  obtain ⟨hf, hm⟩ := keyPressEvent_W d _ h1 h2 hs1 hk1 hk2
  obtain ⟨hd3, hf3⟩ := mousePressEvent_left_in_fps d _ 400 300 hm
  have hrun : run d (Navigation.construct d size aabb stored)
      (exampleLeftClickWhileMoving timerId)
      = mousePressEvent d (keyPressEvent d
          (startFpsNavigation (Navigation.construct d size aabb stored) timerId)
          ⟨Qt.Key.Key_W, Qt.NoModifier⟩)
          ⟨400, 300, Qt.MouseButton.LeftButton, Qt.NoModifier,
            Qt.MouseEventSource.MouseEventNotSynthesized⟩ := rfl
  rw [hrun]
  refine ⟨hd3, ?_, ?_, ?_⟩
  · rw [hd3]
    simp [glm.length, glm.dot, h0]
  · rw [hf3, hf]
  · rw [hf3, hf]
    simp

/-- The stale `key_force` in the rational example instance. -/
theorem key_force_stale_after_stop_witness :
    exampleFns.sqrt 0 = 0 ∧ exampleFns.sqrt 1 = 1 ∧ exampleFns.exp2 0 = 1 ∧
    (run exampleDeps exampleStart (exampleLeftClickWhileMoving 7)).mode = mode_t.IDLE ∧
    (run exampleDeps exampleStart (exampleLeftClickWhileMoving 7)).key_direction
      = ⟨0, 0, 0⟩ ∧
    (run exampleDeps exampleStart (exampleLeftClickWhileMoving 7)).key_force
      = ⟨0, 1 / 2, 0⟩ :=
  ⟨by decide, by decide!, by decide!, by decide!,
    (key_force_stale_after_stop exampleDeps ⟨800, 600⟩ exampleAabb 0 7
      (by decide) (by decide!) (by decide!)).1,
    (key_force_stale_after_stop exampleDeps ⟨800, 600⟩ exampleAabb 0 7
      (by decide) (by decide!) (by decide!)).2.2.1⟩

/-! ## The key force -/

/-- Releasing Shift leaves `key_direction` alone and lowers `key_speed` by one. -/
theorem keyReleaseEvent_shift (d : Deps R) (s : Navigation R) :
    (keyReleaseEvent d s ⟨Qt.Key.Key_Shift, Qt.NoModifier⟩).key_direction = s.key_direction ∧
    (keyReleaseEvent d s ⟨Qt.Key.Key_Shift, Qt.NoModifier⟩).key_speed = s.key_speed - 1 := by
  simp [keyReleaseEvent, direction_for_key, speed_for_key, vec3_sub_def]

/-- Pressing W in FPS with no direction key held: the force for any `key_speed`. -/
theorem keyPressEvent_W_force (d : Deps R) (s : Navigation R) (h1 : d.sqrt 1 = 1)
    (hm : s.mode = mode_t.FPS) (hd : s.key_direction = ⟨0, 0, 0⟩) :
    (keyPressEvent d s ⟨Qt.Key.Key_W, Qt.NoModifier⟩).key_direction = ⟨0, 1, 0⟩ ∧
    (keyPressEvent d s ⟨Qt.Key.Key_W, Qt.NoModifier⟩).key_speed = s.key_speed ∧
    (keyPressEvent d s ⟨Qt.Key.Key_W, Qt.NoModifier⟩).key_force
      = ⟨0, d.exp2 (glm.clamp (-1 : R) 1 (s.key_speed : R)) * (1 / 2), 0⟩ := by
  refine ⟨?_, ?_, ?_⟩
  · simp [keyPressEvent, hm, hd, direction_for_key, vec3_add_def]
  · simp [keyPressEvent, hm, speed_for_key]
  · simp [keyPressEvent, hm, hd, update_key_force, direction_for_key, speed_for_key,
      glm.length, glm.normalize, glm.dot, vec3_add_def, vec3_mul_def, h1]
    norm_num

/-- C11, the code at the failing input. In any maths library with `sqrt 1 = 1`,
`exp2 (-2) = 1/4` and `sqrt (1/64) = 1/8`: after `startFpsNavigation`, two releases of
Shift and a press of W, `key_speed` is -2, the length of `key_direction` is 1, above
0.5, and `key_force` is (0, 1/8, 0), of length 1/8, below the 0.25 that
`normalize(key_direction) * 2^clamp(key_speed, -1, 1) * 0.5` would have. -/
theorem key_force_below_quarter (d : Deps R) (size : ivec2) (aabb : aabb_t R)
    (stored timerId : Int) (h1 : d.sqrt 1 = 1) (h2 : d.exp2 (-2) = 1 / 4)
    (h3 : d.sqrt (1 / 64) = 1 / 8) :
    (run d (Navigation.construct d size aabb stored)
        (exampleShiftReleases timerId)).key_speed = -2 ∧
    glm.length d.toFloatFns (run d (Navigation.construct d size aabb stored)
        (exampleShiftReleases timerId)).key_direction = 1 ∧
    (run d (Navigation.construct d size aabb stored)
        (exampleShiftReleases timerId)).key_force = ⟨0, 1 / 8, 0⟩ ∧
    glm.length d.toFloatFns (run d (Navigation.construct d size aabb stored)
        (exampleShiftReleases timerId)).key_force = 1 / 8 := by
  have hrun : run d (Navigation.construct d size aabb stored) (exampleShiftReleases timerId)
      = keyPressEvent d (keyReleaseEvent d (keyReleaseEvent d
          (startFpsNavigation (Navigation.construct d size aabb stored) timerId)
          ⟨Qt.Key.Key_Shift, Qt.NoModifier⟩) ⟨Qt.Key.Key_Shift, Qt.NoModifier⟩)
          ⟨Qt.Key.Key_W, Qt.NoModifier⟩ := rfl
  have hm : (keyReleaseEvent d (keyReleaseEvent d
      (startFpsNavigation (Navigation.construct d size aabb stored) timerId)
      ⟨Qt.Key.Key_Shift, Qt.NoModifier⟩) ⟨Qt.Key.Key_Shift, Qt.NoModifier⟩).mode
      = mode_t.FPS := by
    simp [Navigation.construct, Navigation.header_defaults]
  have hd : (keyReleaseEvent d (keyReleaseEvent d
      (startFpsNavigation (Navigation.construct d size aabb stored) timerId)
      ⟨Qt.Key.Key_Shift, Qt.NoModifier⟩) ⟨Qt.Key.Key_Shift, Qt.NoModifier⟩).key_direction
      = ⟨0, 0, 0⟩ := by
    simp [keyReleaseEvent_shift, startFpsNavigation, Navigation.construct,
      Navigation.header_defaults, vec3.splat]
  have hs : (keyReleaseEvent d (keyReleaseEvent d
      (startFpsNavigation (Navigation.construct d size aabb stored) timerId)
      ⟨Qt.Key.Key_Shift, Qt.NoModifier⟩) ⟨Qt.Key.Key_Shift, Qt.NoModifier⟩).key_speed
      = -2 := by
    simp [keyReleaseEvent_shift, startFpsNavigation, Navigation.construct,
      Navigation.header_defaults]
  obtain ⟨hkd, hks, hkf⟩ := keyPressEvent_W_force d _ h1 hm hd
  have hc : glm.clamp (-1 : R) 1 (((-2 : Int) : R)) = -2 := by
    simp only [glm.clamp, Int.cast_neg, Int.cast_ofNat]
    rw [max_eq_right (by norm_num), min_eq_right (by norm_num)]
  rw [hrun, hkd, hks, hkf, hs, hc, h2]
  refine ⟨rfl, ?_, ?_, ?_⟩
  · simp [glm.length, glm.dot, h1]
  · norm_num
  · simp only [glm.length, glm.dot]
    rw [show (0 : R) * 0 + (1 / 4 * (1 / 2)) * (1 / 4 * (1 / 2)) + 0 * 0 = 1 / 64 by norm_num, h3]

/-- The short `key_force` in the exact rational instance. -/
theorem key_force_below_quarter_witness :
    exactFns.sqrt 1 = 1 ∧ exactFns.exp2 (-2) = 1 / 4 ∧ exactFns.sqrt (1 / 64) = 1 / 8 ∧
    glm.length exactFns (run exactDeps (Navigation.construct exactDeps ⟨800, 600⟩ exampleAabb 0)
        (exampleShiftReleases 7)).key_direction = 1 ∧
    glm.length exactFns (run exactDeps (Navigation.construct exactDeps ⟨800, 600⟩ exampleAabb 0)
        (exampleShiftReleases 7)).key_force = 1 / 8 :=
  ⟨by decide!, by decide!, by decide!,
    (key_force_below_quarter exactDeps ⟨800, 600⟩ exampleAabb 0 7
      (by decide!) (by decide!) (by decide!)).2.1,
    (key_force_below_quarter exactDeps ⟨800, 600⟩ exampleAabb 0 7
      (by decide!) (by decide!) (by decide!)).2.2.2⟩

/-! ## Pointer moves -/

/-- A `vec2` times a scalar, componentwise. -/
theorem vec2_mul_def (a : vec2 R) (c : R) : a * c = ⟨a.x * c, a.y * c⟩ := rfl

/-- In FPS and in Idle an accepted move assigns `mouse_force` and leaves the camera alone. -/
theorem mouseMoveEvent_accepted (d : Deps R) (s : Navigation R) (ev : QMouseEvent)
    (hm : s.mode = mode_t.FPS ∨ s.mode = mode_t.IDLE) (ha : moveAccepted s ev) :
    (mouseMoveEvent d s ev).mouse_force = assignedMouseForce d s ⟨ev.x, ev.y⟩ ∧
    (mouseMoveEvent d s ev).camera = s.camera := by
  obtain ⟨hsrc, hclose⟩ := ha
  rcases hm with hm | hm
  · have hc := hclose hm
    by_cases hv : distance (⟨ev.x, ev.y⟩ - viewport_center s) (viewport_center s)
        = distance_t.VERY_FAR <;>
      simp [mouseMoveEvent, hm, hsrc, hc, hv, assignedMouseForce, mouse_sensitivity]
  · unfold mouseMoveEvent
    simp [hm, hsrc, assignedMouseForce, mouse_sensitivity]

/-- The clamp call of the source bounds a component from above only. -/
theorem assignedMouseForce_eq (d : Deps R) (s : Navigation R) (pos : ivec2) :
    assignedMouseForce d s pos =
      ⟨min 20 (((pos.x - s.last_mouse_pos.x : Int) : R) * (4 / 10)
          * mouse_sensitivity d s * s._last_frame_duration),
       min 20 (((pos.y - s.last_mouse_pos.y : Int) : R) * (4 / 10)
          * mouse_sensitivity d s * s._last_frame_duration)⟩ := by
  have h : max (-20 : R) 20 = 20 := max_eq_right (by norm_num)
  simp only [assignedMouseForce, vec2.clamp, glm.clamp, vec2.splat, h, vec2_mul_def, vec2.ofInt]
  rfl

/-- C12, the code at the failing input. In any maths library with `pow(1.03, 0) = 1`: in a
3840 x 2160 viewport with sensitivity 0, after a frame of 0.1 s, `startFpsNavigation`, a
pointer move to (900, 0) and an accepted pointer move back to (0, 0), whose delta
(-900, 0) is Close, `mouse_force` is (-36, 0): its x component is below -20. -/
theorem mouse_force_below_minus_twenty (d : Deps R) (aabb : aabb_t R) (timerId : Int)
    (hp : d.pow (103 / 100) 0 = 1) :
    (run d (Navigation.construct d ⟨3840, 2160⟩ aabb 0)
        (exampleFastMoveLeft timerId)).mouse_force = ⟨-36, 0⟩ ∧
    (run d (Navigation.construct d ⟨3840, 2160⟩ aabb 0)
        (exampleFastMoveLeft timerId)).mouse_force.x < -20 := by
  have hrun : run d (Navigation.construct d ⟨3840, 2160⟩ aabb 0) (exampleFastMoveLeft timerId)
      = mouseMoveEvent d (mouseMoveEvent d (startFpsNavigation
          (updateFrameRenderDuration (Navigation.construct d ⟨3840, 2160⟩ aabb 0) (1 / 10))
          timerId)
          ⟨900, 0, Qt.MouseButton.OtherButton 0, Qt.NoModifier,
            Qt.MouseEventSource.MouseEventNotSynthesized⟩)
          ⟨0, 0, Qt.MouseButton.OtherButton 0, Qt.NoModifier,
            Qt.MouseEventSource.MouseEventNotSynthesized⟩ := rfl
  have hval : (run d (Navigation.construct d ⟨3840, 2160⟩ aabb 0)
        (exampleFastMoveLeft timerId)).mouse_force = ⟨-36, 0⟩ := by
    rw [hrun]
    have hm1 : (mouseMoveEvent d (startFpsNavigation
          (updateFrameRenderDuration (Navigation.construct d ⟨3840, 2160⟩ aabb 0) (1 / 10))
          timerId)
          ⟨900, 0, Qt.MouseButton.OtherButton 0, Qt.NoModifier,
            Qt.MouseEventSource.MouseEventNotSynthesized⟩).mode = mode_t.FPS := by
      simp [updateFrameRenderDuration, Navigation.construct, Navigation.header_defaults]
    have hacc : moveAccepted (mouseMoveEvent d (startFpsNavigation
          (updateFrameRenderDuration (Navigation.construct d ⟨3840, 2160⟩ aabb 0) (1 / 10))
          timerId)
          ⟨900, 0, Qt.MouseButton.OtherButton 0, Qt.NoModifier,
            Qt.MouseEventSource.MouseEventNotSynthesized⟩)
          ⟨0, 0, Qt.MouseButton.OtherButton 0, Qt.NoModifier,
            Qt.MouseEventSource.MouseEventNotSynthesized⟩ := by
      refine ⟨rfl, fun _ => ?_⟩
      simp [viewport_center, updateFrameRenderDuration, Navigation.construct,
        Navigation.header_defaults]
      decide
    have hlfd : glm.clamp (1 / 10 : R) (4 / 100) (1 / 10) = 1 / 10 := by
      simp only [glm.clamp]
      rw [max_eq_left (by norm_num), min_eq_left (le_refl _)]
    have hl : (mouseMoveEvent d (startFpsNavigation
          (updateFrameRenderDuration (Navigation.construct d ⟨3840, 2160⟩ aabb 0) (1 / 10))
          timerId)
          ⟨900, 0, Qt.MouseButton.OtherButton 0, Qt.NoModifier,
            Qt.MouseEventSource.MouseEventNotSynthesized⟩)._last_frame_duration = 1 / 10 := by
      simp only [mouseMoveEvent_fields, startFpsNavigation_fields, updateFrameRenderDuration]
      exact hlfd
    have hv : (mouseMoveEvent d (startFpsNavigation
          (updateFrameRenderDuration (Navigation.construct d ⟨3840, 2160⟩ aabb 0) (1 / 10))
          timerId)
          ⟨900, 0, Qt.MouseButton.OtherButton 0, Qt.NoModifier,
            Qt.MouseEventSource.MouseEventNotSynthesized⟩)._mouse_sensitivity_value = 0 := by
      simp [updateFrameRenderDuration, Navigation.construct]
    have hpos : (mouseMoveEvent d (startFpsNavigation
          (updateFrameRenderDuration (Navigation.construct d ⟨3840, 2160⟩ aabb 0) (1 / 10))
          timerId)
          ⟨900, 0, Qt.MouseButton.OtherButton 0, Qt.NoModifier,
            Qt.MouseEventSource.MouseEventNotSynthesized⟩).last_mouse_pos = ⟨900, 0⟩ := by
      simp
    rw [(mouseMoveEvent_accepted d _ _ (Or.inl hm1) hacc).1, assignedMouseForce_eq]
    simp only [mouse_sensitivity, hl, hv, hpos, Int.cast_zero, hp]
    rw [min_eq_right (by norm_num), min_eq_right (by norm_num)]
    norm_num
  refine ⟨hval, ?_⟩
  rw [hval]
  norm_num

/-- The unclamped `mouse_force` in the exact rational instance. -/
theorem mouse_force_below_minus_twenty_witness :
    exactFns.pow (103 / 100) 0 = 1 ∧
    (run exactDeps (Navigation.construct exactDeps ⟨3840, 2160⟩ exampleAabb 0)
        (exampleFastMoveLeft 7)).mode = mode_t.FPS ∧
    (run exactDeps (Navigation.construct exactDeps ⟨3840, 2160⟩ exampleAabb 0)
        (exampleFastMoveLeft 7)).mouse_force = ⟨-36, 0⟩ :=
  ⟨by decide!, by decide!,
    (mouse_force_below_minus_twenty exactDeps exampleAabb 7 (by decide!)).1⟩

/-- The integer test of `is_very_far` decides the rational inequality. -/
theorem is_very_far_iff (value radius : Int) (h0 : 0 ≤ radius) (h8 : radius * 8 ≤ 2147483647) :
    is_very_far value radius = true ↔ (value : ℚ) > 8 / 10 * (radius : ℚ) := by
  have hw : wrapInt32 (radius * 8) = radius * 8 := wrapInt32_of_fits _ (by omega) h8
  have ht : Int.tdiv (radius * 8) 10 = radius * 8 / 10 :=
    Int.tdiv_eq_ediv (by omega) (by omega)
  simp only [is_very_far, hw, ht, decide_eq_true_eq, gt_iff_lt]
  constructor
  · intro h
    have h1 : radius * 8 < 10 * value := by omega
    have h2 : ((radius * 8 : Int) : ℚ) < ((10 * value : Int) : ℚ) := by exact_mod_cast h1
    push_cast at h2
    linarith
  · intro h
    have h2 : ((radius * 8 : Int) : ℚ) < ((10 * value : Int) : ℚ) := by
      push_cast
      linarith
    have h1 : radius * 8 < 10 * value := by exact_mod_cast h2
    omega

/-- The integer test of `is_far` decides the rational inequality. -/
theorem is_far_iff (value radius : Int) (h0 : 0 ≤ radius) :
    is_far value radius = true ↔ (value : ℚ) > 5 / 10 * (radius : ℚ) := by
  have ht : Int.tdiv radius 2 = radius / 2 := Int.tdiv_eq_ediv h0 (by omega)
  simp only [is_far, ht, decide_eq_true_eq, gt_iff_lt]
  constructor
  · intro h
    have h1 : radius < 2 * value := by omega
    have h2 : ((radius : Int) : ℚ) < ((2 * value : Int) : ℚ) := by exact_mod_cast h1
    push_cast at h2
    linarith
  · intro h
    have h2 : ((radius : Int) : ℚ) < ((2 * value : Int) : ℚ) := by
      push_cast
      linarith
    have h1 : radius < 2 * value := by exact_mod_cast h2
    omega

/-- C13 as stated fails: for the offset whose x component is the least `int`, whose
negation is not representable, `glm::abs` returns the component as it is, negative, and
`distance` answers Close for the radius (400, 300), where the rational comparison says
VeryFar. -/
theorem distance_least_int_is_close :
    (ivec2.abs ⟨-2147483648, 0⟩).x = -2147483648 ∧
    distance ⟨-2147483648, 0⟩ ⟨400, 300⟩ = distance_t.CLOSE ∧
    distanceSpec ⟨-2147483648, 0⟩ ⟨400, 300⟩ = distance_t.VERY_FAR :=
  ⟨by decide, by decide, by decide!⟩

/-- C13, amended. The band classifier agrees with its real-valued definition: for every
integer offset whose components have an absolute value that is an `int` (every `int`
but the least) and every radius with non-negative components small enough that eight
times a component fits in an `int`, `distance` returns the band that the exact rational
comparisons with 0.8 and 0.5 times the radius give. -/
theorem distance_eq_distanceSpec (difference radius : ivec2)
    (hdx : |difference.x| ≤ 2147483647) (hdy : |difference.y| ≤ 2147483647)
    (hx : 0 ≤ radius.x) (hy : 0 ≤ radius.y)
    (hx8 : radius.x * 8 ≤ 2147483647) (hy8 : radius.y * 8 ≤ 2147483647) :
    distance difference radius = distanceSpec difference radius := by
  have h1 := is_very_far_iff |difference.x| radius.x hx hx8
  have h2 := is_very_far_iff |difference.y| radius.y hy hy8
  have h3 := is_far_iff |difference.x| radius.x hx
  have h4 := is_far_iff |difference.y| radius.y hy
  have wx : wrapInt32 |difference.x| = |difference.x| :=
    wrapInt32_of_fits _ (by have := abs_nonneg difference.x; omega) hdx
  have wy : wrapInt32 |difference.y| = |difference.y| :=
    wrapInt32_of_fits _ (by have := abs_nonneg difference.y; omega) hdy
  simp only [distance, distanceSpec, ivec2.abs, wx, wy, Bool.or_eq_true, h1, h2, h3, h4]

/-- At the boundary: with radius 401 the integer bound is 320 and the rational bound is
320.8; the offset 321 is VeryFar for both. -/
theorem distance_eq_distanceSpec_witness :
    distance ⟨-321, 7⟩ ⟨401, 301⟩ = distance_t.VERY_FAR ∧
    distance ⟨-320, 7⟩ ⟨401, 301⟩ = distance_t.FAR ∧
    distance ⟨-321, 7⟩ ⟨401, 301⟩ = distanceSpec ⟨-321, 7⟩ ⟨401, 301⟩ :=
  ⟨by decide, by decide,
    distance_eq_distanceSpec ⟨-321, 7⟩ ⟨401, 301⟩ (by decide) (by decide) (by decide)
      (by decide) (by decide) (by decide)⟩

/-- C14. Recentring and warp-echo rejection in FPS: a pointer move in FPS emits the
cursor warp to the viewport centre exactly when the offset of the pointer from the
centre is VeryFar, and emits nothing else; when the delta from `last_mouse_pos` is not
Close, the camera frame and `mouse_force` are unchanged and `last_mouse_pos` is the only
member that changes. -/
theorem fps_move_recentring (d : Deps R) (s : Navigation R) (ev : QMouseEvent)
    (hm : s.mode = mode_t.FPS) :
    (mouseMoveEvent d s ev).emitted =
      s.emitted ++
        (if distance (⟨ev.x, ev.y⟩ - viewport_center s) (viewport_center s)
            = distance_t.VERY_FAR then
          [Effect.cursor_setPos (viewport_center s)]
        else []) ∧
    (distance (⟨ev.x, ev.y⟩ - s.last_mouse_pos) (viewport_center s) ≠ distance_t.CLOSE →
      (mouseMoveEvent d s ev).camera.frame = s.camera.frame ∧
      (mouseMoveEvent d s ev).mouse_force = s.mouse_force ∧
      mouseMoveEvent d s ev =
        { s with last_mouse_pos := ⟨ev.x, ev.y⟩, emitted := (mouseMoveEvent d s ev).emitted }) := by
  by_cases hv : distance (⟨ev.x, ev.y⟩ - viewport_center s) (viewport_center s)
      = distance_t.VERY_FAR <;>
    by_cases hc : distance (⟨ev.x, ev.y⟩ - s.last_mouse_pos) (viewport_center s)
      = distance_t.CLOSE <;>
    by_cases hs : ev.source = Qt.MouseEventSource.MouseEventNotSynthesized <;>
    simp [mouseMoveEvent, hm, hv, hc, hs, set_mouse_pos, emit]

/-- The scenario of the spec: viewport (800, 600), pointer at (790, 300) gives a warp to
(400, 300); the following move, with delta (-390, 0), is VeryFar and discarded. -/
theorem fps_move_recentring_witness :
    exampleFps.mode = mode_t.FPS ∧ viewport_center exampleFps = ⟨400, 300⟩ ∧
    exampleAtEdge.mode = mode_t.FPS ∧
    exampleAtEdge.emitted = exampleFps.emitted ++ [Effect.cursor_setPos ⟨400, 300⟩] ∧
    distance (⟨400, 300⟩ - exampleAtEdge.last_mouse_pos) ⟨400, 300⟩ = distance_t.VERY_FAR ∧
    (mouseMoveEvent exampleDeps exampleAtEdge exampleWarpEcho).camera.frame
      = exampleAtEdge.camera.frame ∧
    (mouseMoveEvent exampleDeps exampleAtEdge exampleWarpEcho).mouse_force
      = exampleAtEdge.mouse_force :=
  ⟨by decide, by decide, by decide,
    (fps_move_recentring exampleDeps exampleFps exampleMoveToEdge (by decide)).1,
    by decide,
    ((fps_move_recentring exampleDeps exampleAtEdge exampleWarpEcho (by decide)).2
      (by decide)).1,
    ((fps_move_recentring exampleDeps exampleAtEdge exampleWarpEcho (by decide)).2
      (by decide)).2.1⟩

/-- C15 as stated fails: of two consecutive accepted pointer moves in FPS, with scaled
deltas (8/5, 0) and (4/5, 0), the second leaves `mouse_force` at (4/5, 0), not at the
sum. -/
theorem second_move_drops_first :
    exampleFps.mode = mode_t.FPS ∧
    moveAccepted exampleFps exampleMoveA ∧ moveAccepted exampleAfterMoveA exampleMoveB ∧
    exampleAfterMoveA.mouse_force = ⟨8 / 5, 0⟩ ∧
    scaledDelta exampleDeps exampleAfterMoveA ⟨150, 0⟩ = ⟨4 / 5, 0⟩ ∧
    (mouseMoveEvent exampleDeps exampleAfterMoveA exampleMoveB).mouse_force = ⟨4 / 5, 0⟩ ∧
    (mouseMoveEvent exampleDeps exampleAfterMoveA exampleMoveB).mouse_force.x
      ≠ exampleAfterMoveA.mouse_force.x
          + (scaledDelta exampleDeps exampleAfterMoveA ⟨150, 0⟩).x :=
  ⟨by decide, ⟨rfl, fun _ => by decide⟩, ⟨rfl, fun _ => by decide⟩, by decide!, by decide!,
    by decide!, by decide!⟩

/-- The integrator zeroes `mouse_force`. -/
theorem navigate_mouse_force (d : Deps R) (s : Navigation R) (h : s.mode ≠ mode_t.IDLE) :
    (navigate d s).mouse_force = vec2.splat 0 := by
  unfold navigate
  simp [h]

/-- C15, amended. Of two consecutive pointer moves in FPS with no tick between them, the
second, when accepted, overwrites `mouse_force`: the value after it does not depend on
the value `m` that `mouse_force` had after the first move, accepted or not, and it is
the scaled delta of the second move whenever that lies within [-20, 20] in both
components. The next tick
leaves `mouse_force` at zero, and unless it is the first tick of the session it
integrates the camera with the value the second move assigned. -/
theorem second_move_overwrites (d : Deps R) (s : Navigation R) (ev1 ev2 : QMouseEvent)
    (tick : QTimerEvent) (m : vec2 R) (hm : s.mode = mode_t.FPS)
    (h2 : moveAccepted (mouseMoveEvent d s ev1) ev2)
    (ht : tick.timerId = s.fps_timer) :
    (mouseMoveEvent d (mouseMoveEvent d s ev1) ev2).mouse_force
      = (mouseMoveEvent d { mouseMoveEvent d s ev1 with mouse_force := m } ev2).mouse_force ∧
    (-20 ≤ (scaledDelta d (mouseMoveEvent d s ev1) ⟨ev2.x, ev2.y⟩).x ∧
        (scaledDelta d (mouseMoveEvent d s ev1) ⟨ev2.x, ev2.y⟩).x ≤ 20 ∧
        -20 ≤ (scaledDelta d (mouseMoveEvent d s ev1) ⟨ev2.x, ev2.y⟩).y ∧
        (scaledDelta d (mouseMoveEvent d s ev1) ⟨ev2.x, ev2.y⟩).y ≤ 20 →
      (mouseMoveEvent d (mouseMoveEvent d s ev1) ev2).mouse_force
        = scaledDelta d (mouseMoveEvent d s ev1) ⟨ev2.x, ev2.y⟩) ∧
    (timerEvent d (mouseMoveEvent d (mouseMoveEvent d s ev1) ev2) tick).mouse_force
      = vec2.splat 0 ∧
    (s.num_frames_in_fps_mode ≠ 0 →
      (timerEvent d (mouseMoveEvent d (mouseMoveEvent d s ev1) ev2) tick).camera
        = (navigate d (mouseMoveEvent d (mouseMoveEvent d s ev1) ev2)).camera) := by
  have hm1 : (mouseMoveEvent d s ev1).mode = mode_t.FPS := by simp [hm]
  have hm2 : (mouseMoveEvent d (mouseMoveEvent d s ev1) ev2).mode = mode_t.FPS := by simp [hm]
  have h2' : moveAccepted { mouseMoveEvent d s ev1 with mouse_force := m } ev2 := h2
  have ha := (mouseMoveEvent_accepted d _ ev2 (Or.inl hm1) h2).1
  have hb := (mouseMoveEvent_accepted d { mouseMoveEvent d s ev1 with mouse_force := m } ev2
    (Or.inl hm1) h2').1
  refine ⟨?_, ?_, ?_, ?_⟩
  · rw [ha, hb]
    rfl
  · rintro ⟨_, hx, _, hy⟩
    have hx' : ((ev2.x - (mouseMoveEvent d s ev1).last_mouse_pos.x : Int) : R) * (4 / 10)
        * mouse_sensitivity d (mouseMoveEvent d s ev1)
        * (mouseMoveEvent d s ev1)._last_frame_duration ≤ 20 := hx
    have hy' : ((ev2.y - (mouseMoveEvent d s ev1).last_mouse_pos.y : Int) : R) * (4 / 10)
        * mouse_sensitivity d (mouseMoveEvent d s ev1)
        * (mouseMoveEvent d s ev1)._last_frame_duration ≤ 20 := hy
    rw [ha, assignedMouseForce_eq, min_eq_right hx', min_eq_right hy']
    rfl
  · unfold timerEvent
    simp only [mouseMoveEvent_fields, ht, hm]
    by_cases hn : s.num_frames_in_fps_mode = 0
    · simp [hn, navigate_mouse_force, hm]
    · simp [hn, navigate_mouse_force, hm]
  · intro hn
    unfold timerEvent
    simp [ht, hm, hn]

/-- The two moves of the counterexample after a first tick: the second move assigns
(4/5, 0) whatever was there, and the next tick integrates and zeroes it. -/
theorem second_move_overwrites_witness :
    exampleFpsTicked.mode = mode_t.FPS ∧ exampleFpsTicked.num_frames_in_fps_mode = 1 ∧
    moveAccepted exampleFpsTicked exampleMoveA ∧
    moveAccepted (mouseMoveEvent exampleDeps exampleFpsTicked exampleMoveA) exampleMoveB ∧
    (mouseMoveEvent exampleDeps (mouseMoveEvent exampleDeps exampleFpsTicked exampleMoveA)
        exampleMoveB).mouse_force = ⟨4 / 5, 0⟩ ∧
    (mouseMoveEvent exampleDeps (mouseMoveEvent exampleDeps exampleFpsTicked exampleMoveA)
        exampleMoveB).mouse_force
      = scaledDelta exampleDeps (mouseMoveEvent exampleDeps exampleFpsTicked exampleMoveA)
          ⟨exampleMoveB.x, exampleMoveB.y⟩ ∧
    (timerEvent exampleDeps
        (mouseMoveEvent exampleDeps (mouseMoveEvent exampleDeps exampleFpsTicked exampleMoveA)
          exampleMoveB) ⟨7⟩).mouse_force = vec2.splat 0 :=
  ⟨by decide, by decide, ⟨rfl, fun _ => by decide⟩, ⟨rfl, fun _ => by decide⟩, by decide!,
    (second_move_overwrites exampleDeps exampleFpsTicked exampleMoveA exampleMoveB ⟨7⟩ ⟨0, 0⟩
      (by decide) ⟨rfl, fun _ => by decide⟩ (by decide)).2.1
      (by decide!),
    (second_move_overwrites exampleDeps exampleFpsTicked exampleMoveA exampleMoveB ⟨7⟩ ⟨0, 0⟩
      (by decide) ⟨rfl, fun _ => by decide⟩ (by decide)).2.2.1⟩

/-! ## The turntable zoom -/

/-- A scalar times a vector, componentwise. -/
theorem vec3_smul_def (c : R) (a : vec3 R) : c * a = ⟨c * a.x, c * a.y, c * a.z⟩ := rfl

/-- Adding and then subtracting the pivot gives back the offset. -/
theorem vec3_add_sub_cancel (o v : vec3 R) : (o + v) - o = v := by
  simp only [vec3_add_def, vec3_sub_def]
  congr 1 <;> ring

/-- The clamp call of the source bounds the zoom factor from above only. -/
theorem zoom_factor_eq (d : Deps R) (s : Navigation R) :
    zoom_factor d s = min (3 / 2) (d.exp2 (1 / 2 * s.mouse_force.y)) := by
  have h : max (1 / 2 : R) (3 / 2) = 3 / 2 := max_eq_right (by norm_num)
  simp only [zoom_factor, glm.clamp, h]

/-- The TurntableZoom branch of `navigate`. -/
theorem navigate_zoom (d : Deps R) (s : Navigation R) (hm : s.mode = mode_t.TURNTABLE_ZOOM) :
    (zoomPassesFloor d s →
      navigate d s =
        { s with
          camera := ⟨{ s.camera.frame with
            position := s.turntable_origin
              + zoom_factor d s * (s.camera.frame.position - s.turntable_origin) }⟩
          mouse_force := vec2.splat 0 }) ∧
    (¬ zoomPassesFloor d s → navigate d s = { s with mouse_force := vec2.splat 0 }) := by
  have hi : ¬ s.mode = mode_t.IDLE := by rw [hm]; decide
  constructor
  · intro h
    unfold zoomPassesFloor zoom_factor at h
    rw [navigate, if_neg hi]
    simp only [hm, zoom_factor]
    rw [if_pos h]
  · intro h
    unfold zoomPassesFloor zoom_factor at h
    rw [navigate, if_neg hi]
    simp only [hm]
    rw [if_neg h, hm]

/-- C16 as stated fails: with the camera at distance 1 from the pivot and
`mouse_force.y = 2` the step passes the floor and moves the camera to distance 3/2 =
min(1.5, 2^1), while `2^clamp(0.5 * 2, 0.5, 1.5) = 2` would move it to distance 2. -/
theorem zoom_factor_not_exp2_of_clamp :
    (exactZoomStep 1 2).mode = mode_t.TURNTABLE_ZOOM ∧
    zoomPassesFloor exactDeps (exactZoomStep 1 2) ∧
    (navigate exactDeps (exactZoomStep 1 2)).camera.frame.position = ⟨0, 0, 3 / 2⟩ ∧
    (exactZoomStep 1 2).turntable_origin
      + exactFns.exp2 (max (1 / 2) (min (1 / 2 * (exactZoomStep 1 2).mouse_force.y) (3 / 2)))
        * ((exactZoomStep 1 2).camera.frame.position - (exactZoomStep 1 2).turntable_origin)
      = ⟨0, 0, 2⟩ := by
  refine ⟨by decide, ?_, by decide!, by decide!⟩
  unfold zoomPassesFloor
  decide!

/-- C16, amended. In a TurntableZoom integrator step that passes the floor, the new
camera position is `turntable_origin + zoom * (position - turntable_origin)` where the
exponential, not the exponent, is clamped: `zoom = clamp(2^(0.5 * mouse_force.y), 0.5,
1.5)`, for every `mouse_force.y` with `2^(0.5 * mouse_force.y)` at least 0.5. -/
theorem zoom_clamps_the_exponential (d : Deps R) (s : Navigation R)
    (hm : s.mode = mode_t.TURNTABLE_ZOOM) (hp : zoomPassesFloor d s)
    (he : 1 / 2 ≤ d.exp2 (1 / 2 * s.mouse_force.y)) :
    (navigate d s).camera.frame.position =
      s.turntable_origin
        + max (1 / 2) (min (d.exp2 (1 / 2 * s.mouse_force.y)) (3 / 2))
          * (s.camera.frame.position - s.turntable_origin) := by
  rw [(navigate_zoom d s hm).1 hp, zoom_factor_eq]
  have h1 : min (3 / 2) (d.exp2 (1 / 2 * s.mouse_force.y))
      = max (1 / 2) (min (d.exp2 (1 / 2 * s.mouse_force.y)) (3 / 2)) := by
    rw [min_comm, max_eq_right]
    exact le_min he (by norm_num)
  simp only [h1]

/-- The step of the counterexample: `2^1 = 2` is clamped to 1.5. -/
theorem zoom_clamps_the_exponential_witness :
    (exactZoomStep 1 2).mode = mode_t.TURNTABLE_ZOOM ∧
    exactFns.exp2 (1 / 2 * (exactZoomStep 1 2).mouse_force.y) = 2 ∧
    (navigate exactDeps (exactZoomStep 1 2)).camera.frame.position =
      (exactZoomStep 1 2).turntable_origin
        + max (1 / 2) (min (exactDeps.exp2 (1 / 2 * (exactZoomStep 1 2).mouse_force.y)) (3 / 2))
          * ((exactZoomStep 1 2).camera.frame.position - (exactZoomStep 1 2).turntable_origin) :=
  ⟨by decide, by decide!,
    zoom_clamps_the_exponential exactDeps (exactZoomStep 1 2) (by decide)
      (by unfold zoomPassesFloor; decide!) (by decide!)⟩

/-- Two non-negative numbers with the same square are equal. -/
theorem eq_of_mul_self_eq_of_nonneg (a b : R) (ha : 0 ≤ a) (hb : 0 ≤ b)
    (h : a * a = b * b) : a = b := by
  nlinarith [sq_nonneg (a - b), sq_nonneg (a + b), mul_nonneg ha hb]

/-- Scaling a vector by a non-negative factor scales its length, where `sqrt` is exact. -/
theorem length_smul (F : FloatFns R) (c : R) (v : vec3 R) (hc : 0 ≤ c)
    (h1 : sqrtExactAt F (glm.dot v v)) (h2 : sqrtExactAt F (glm.dot (c * v) (c * v))) :
    glm.length F (c * v) = c * glm.length F v := by
  unfold glm.length
  apply eq_of_mul_self_eq_of_nonneg _ _ h2.1 (mul_nonneg hc h1.1)
  rw [h2.2]
  have : c * F.sqrt (dot v v) * (c * F.sqrt (dot v v))
      = c * c * (F.sqrt (dot v v) * F.sqrt (dot v v)) := by ring
  rw [this, h1.2]
  simp only [glm.dot, vec3_smul_def]
  ring

/-- C17 as stated fails in `float` arithmetic: with the pivot at (1000000, 0, 0), the
camera at (1000000.0625, 0, 0) and zoom factor 1/2, all of them `float` values, the
product 0.5 * 0.0625 = 0.03125 passes the test against 1e-2, and the sum
1000000 + 0.03125 rounds to 1000000: the step is accepted and puts the camera onto the
pivot, at distance 0. In exact arithmetic the same step ends at (1000000.03125, 0, 0). -/
theorem zoom_floor_float32_collapse :
    exactFarZoom.mode = mode_t.TURNTABLE_ZOOM ∧
    exactFarZoom.turntable_origin = ⟨1000000, 0, 0⟩ ∧
    exactFarZoom.camera.frame.position = ⟨1000000 + 1 / 16, 0, 0⟩ ∧
    roundFloat32 (1000000 + 1 / 16) = 1000000 + 1 / 16 ∧
    zoom_factor_float32 exactDeps exactFarZoom = 1 / 2 ∧
    zoomPassesFloorFloat32 exactDeps exactFarZoom ∧
    (navigate_zoom_float32 exactDeps exactFarZoom).camera.frame.position
      = ⟨1000000, 0, 0⟩ ∧
    (navigate_zoom_float32 exactDeps exactFarZoom).turntable_origin = ⟨1000000, 0, 0⟩ ∧
    lengthFloat32 exactFns
      (vec3.subFloat32 (navigate_zoom_float32 exactDeps exactFarZoom).camera.frame.position
        (navigate_zoom_float32 exactDeps exactFarZoom).turntable_origin) = 0 ∧
    zoomPassesFloor exactDeps exactFarZoom ∧
    (navigate exactDeps exactFarZoom).camera.frame.position = ⟨1000000 + 1 / 32, 0, 0⟩ := by
  refine ⟨by decide, by decide!, by decide!, by decide!, by decide!, by decide!, by decide!,
    by decide!, by decide!, ?_, by decide!⟩
  unfold zoomPassesFloor
  decide!

/-- C17, amended. Zoom floor in exact arithmetic: in a TurntableZoom integrator step over
an ordered field, with an exponential that is positive and a `sqrt` that is the real
square root at the two squared distances: when
`zoom_factor * ‖position - turntable_origin‖` is not greater than 1e-2 the camera frame
and the pivot are unchanged and only `mouse_force` is zeroed; otherwise the resulting
distance to the pivot is greater than 1e-2 and the orientation is unchanged. -/
theorem zoom_floor (d : Deps R) (s : Navigation R) (hm : s.mode = mode_t.TURNTABLE_ZOOM)
    (he : 0 < d.exp2 (1 / 2 * s.mouse_force.y))
    (h1 : sqrtExactAt d.toFloatFns
      (glm.dot (s.camera.frame.position - s.turntable_origin)
        (s.camera.frame.position - s.turntable_origin)))
    (h2 : sqrtExactAt d.toFloatFns
      (glm.dot (zoom_factor d s * (s.camera.frame.position - s.turntable_origin))
        (zoom_factor d s * (s.camera.frame.position - s.turntable_origin)))) :
    (¬ zoomPassesFloor d s →
      (navigate d s).camera.frame = s.camera.frame ∧
      (navigate d s).turntable_origin = s.turntable_origin ∧
      navigate d s = { s with mouse_force := vec2.splat 0 }) ∧
    (zoomPassesFloor d s →
      glm.length d.toFloatFns
          ((navigate d s).camera.frame.position - (navigate d s).turntable_origin) > 1 / 100 ∧
      (navigate d s).camera.frame.orientation = s.camera.frame.orientation) := by
  constructor
  · intro h
    rw [(navigate_zoom d s hm).2 h]
    exact ⟨rfl, rfl, rfl⟩
  · intro h
    rw [(navigate_zoom d s hm).1 h]
    refine ⟨?_, rfl⟩
    have hz : 0 ≤ zoom_factor d s := by
      rw [zoom_factor_eq]
      exact le_min (by norm_num) (le_of_lt he)
    show glm.length d.toFloatFns
      ((s.turntable_origin + zoom_factor d s * (s.camera.frame.position - s.turntable_origin))
        - s.turntable_origin) > 1 / 100
    rw [vec3_add_sub_cancel, length_smul d.toFloatFns _ _ hz h1 h2]
    exact h

/-- The scenario of the spec: camera at (0, 0, 0.02), pivot at the origin, zoom factor
0.5: no change. And from distance 1 the same zoom factor gives distance 0.5, above the
floor. -/
theorem zoom_floor_witness :
    (exactZoomStep (1 / 50) (-2)).camera.frame.position = ⟨0, 0, 1 / 50⟩ ∧
    zoom_factor exactDeps (exactZoomStep (1 / 50) (-2)) = 1 / 2 ∧
    ¬ zoomPassesFloor exactDeps (exactZoomStep (1 / 50) (-2)) ∧
    (navigate exactDeps (exactZoomStep (1 / 50) (-2))).camera.frame
      = (exactZoomStep (1 / 50) (-2)).camera.frame ∧
    (navigate exactDeps (exactZoomStep (1 / 50) (-2))).turntable_origin
      = (exactZoomStep (1 / 50) (-2)).turntable_origin ∧
    (navigate exactDeps (exactZoomStep 1 (-2))).camera.frame.position = ⟨0, 0, 1 / 2⟩ ∧
    glm.length exactFns
        ((navigate exactDeps (exactZoomStep 1 (-2))).camera.frame.position
          - (navigate exactDeps (exactZoomStep 1 (-2))).turntable_origin) > 1 / 100 :=
  ⟨by decide!, by decide!, by unfold zoomPassesFloor; decide!,
    ((zoom_floor exactDeps (exactZoomStep (1 / 50) (-2)) (by decide) (by decide!)
      (by unfold sqrtExactAt; decide!) (by unfold sqrtExactAt; decide!)).1
      (by unfold zoomPassesFloor; decide!)).1,
    ((zoom_floor exactDeps (exactZoomStep (1 / 50) (-2)) (by decide) (by decide!)
      (by unfold sqrtExactAt; decide!) (by unfold sqrtExactAt; decide!)).1
      (by unfold zoomPassesFloor; decide!)).2.1,
    by decide!,
    ((zoom_floor exactDeps (exactZoomStep 1 (-2)) (by decide) (by decide!)
      (by unfold sqrtExactAt; decide!) (by unfold sqrtExactAt; decide!)).2
      (by unfold zoomPassesFloor; decide!)).1⟩

/-! ## Rotations: the turntable orbit and the roll -/

/-- The Hamilton product, componentwise. -/
theorem quat_mul_def (p q : quat R) :
    p * q = ⟨p.w * q.w - p.x * q.x - p.y * q.y - p.z * q.z,
      p.w * q.x + p.x * q.w + p.y * q.z - p.z * q.y,
      p.w * q.y + p.y * q.w + p.z * q.x - p.x * q.z,
      p.w * q.z + p.z * q.w + p.x * q.y - p.y * q.x⟩ := rfl

/-- The norm of quaternions is multiplicative. -/
theorem quatNormSq_mul (p q : quat R) : quatNormSq (p * q) = quatNormSq p * quatNormSq q := by
  simp only [quatNormSq, quat_mul_def]
  ring

/-- A unit quaternion rotates without changing lengths. -/
theorem dot_rotate (q : quat R) (v : vec3 R) (h : quatNormSq q = 1) :
    glm.dot (q.rotate v) (q.rotate v) = glm.dot v v := by
  simp only [quatNormSq] at h
  simp only [quat.rotate, glm.dot, glm.cross, vec3_add_def, vec3_mul_def]
  linear_combination
    (4 * ((q.y * v.z - v.y * q.z) * (q.y * v.z - v.y * q.z)
      + (q.z * v.x - v.z * q.x) * (q.z * v.x - v.z * q.x)
      + (q.x * v.y - v.x * q.y) * (q.x * v.y - v.x * q.y))) * h

/-- The quaternion of `angleAxis` about a unit axis is a unit quaternion. -/
theorem quatNormSq_angleAxis (F : FloatFns R) (angle : R) (v : vec3 R)
    (hsc : ∀ x : R, F.sin x * F.sin x + F.cos x * F.cos x = 1) (hv : glm.dot v v = 1) :
    quatNormSq (angleAxis F angle v) = 1 := by
  have h := hsc (angle * (1 / 2))
  simp only [glm.dot] at hv
  simp only [quatNormSq, angleAxis]
  linear_combination h + (F.sin (angle * (1 / 2)) * F.sin (angle * (1 / 2))) * hv

/-- Rotating by a product of unit quaternions is rotating by the right factor first. -/
theorem rotate_mul (p q : quat R) (v : vec3 R) (hp : quatNormSq p = 1)
    (hq : quatNormSq q = 1) : (p * q).rotate v = p.rotate (q.rotate v) := by
  simp only [quatNormSq] at hp hq
  have hx : ((p * q).rotate v).x = (p.rotate (q.rotate v)).x := by
    simp only [quat.rotate, glm.cross, vec3_add_def, vec3_mul_def, quat_mul_def]
    linear_combination
      (((1 - 2 * (q.x * q.x + q.y * q.y + q.z * q.z)) * v.x + 2 * q.w * (q.y * v.z - q.z * v.y)
          + 2 * q.x * (q.x * v.x + q.y * v.y + q.z * v.z))
        - (q.w * q.w + q.x * q.x + q.y * q.y + q.z * q.z) * v.x) * hp
      + (((1 - 2 * (p.x * p.x + p.y * p.y + p.z * p.z)) * v.x + 2 * p.w * (p.y * v.z - p.z * v.y)
          + 2 * p.x * (p.x * v.x + p.y * v.y + p.z * v.z))
        + ((p.w * p.w + p.x * p.x + p.y * p.y + p.z * p.z) - 2) * v.x) * hq
  have hy : ((p * q).rotate v).y = (p.rotate (q.rotate v)).y := by
    simp only [quat.rotate, glm.cross, vec3_add_def, vec3_mul_def, quat_mul_def]
    linear_combination
      (((1 - 2 * (q.x * q.x + q.y * q.y + q.z * q.z)) * v.y + 2 * q.w * (q.z * v.x - q.x * v.z)
          + 2 * q.y * (q.x * v.x + q.y * v.y + q.z * v.z))
        - (q.w * q.w + q.x * q.x + q.y * q.y + q.z * q.z) * v.y) * hp
      + (((1 - 2 * (p.x * p.x + p.y * p.y + p.z * p.z)) * v.y + 2 * p.w * (p.z * v.x - p.x * v.z)
          + 2 * p.y * (p.x * v.x + p.y * v.y + p.z * v.z))
        + ((p.w * p.w + p.x * p.x + p.y * p.y + p.z * p.z) - 2) * v.y) * hq
  have hz : ((p * q).rotate v).z = (p.rotate (q.rotate v)).z := by
    simp only [quat.rotate, glm.cross, vec3_add_def, vec3_mul_def, quat_mul_def]
    linear_combination
      (((1 - 2 * (q.x * q.x + q.y * q.y + q.z * q.z)) * v.z + 2 * q.w * (q.x * v.y - q.y * v.x)
          + 2 * q.z * (q.x * v.x + q.y * v.y + q.z * v.z))
        - (q.w * q.w + q.x * q.x + q.y * q.y + q.z * q.z) * v.z) * hp
      + (((1 - 2 * (p.x * p.x + p.y * p.y + p.z * p.z)) * v.z + 2 * p.w * (p.x * v.y - p.y * v.x)
          + 2 * p.z * (p.x * v.x + p.y * v.y + p.z * v.z))
        + ((p.w * p.w + p.x * p.x + p.y * p.y + p.z * p.z) - 2) * v.z) * hq
  cases h1 : (p * q).rotate v
  cases h2 : p.rotate (q.rotate v)
  rw [h1, h2] at hx hy hz
  simp only at hx hy hz
  rw [hx, hy, hz]

/-- A rotation about an axis leaves the axis where it is. -/
theorem rotate_axis (F : FloatFns R) (angle : R) (v : vec3 R) :
    (angleAxis F angle v).rotate v = v := by
  cases v with
  | mk x y z =>
    simp only [quat.rotate, angleAxis, glm.cross, vec3_add_def, vec3_mul_def]
    congr 1 <;> ring

/-- The quaternion of the opposite angle about the same unit axis undoes the rotation. -/
theorem angleAxis_neg_mul_cancel (F : FloatFns R) (angle : R) (v : vec3 R) (q : quat R)
    (hsc : ∀ x : R, F.sin x * F.sin x + F.cos x * F.cos x = 1)
    (hsin : ∀ x : R, F.sin (-x) = -F.sin x) (hcos : ∀ x : R, F.cos (-x) = F.cos x)
    (hv : glm.dot v v = 1) :
    angleAxis F (-angle) v * (angleAxis F angle v * q) = q := by
  have h := hsc (angle * (1 / 2))
  have hn : -angle * (1 / 2) = -(angle * (1 / 2)) := by ring
  simp only [glm.dot] at hv
  cases q with
  | mk w x y z =>
    simp only [angleAxis, quat_mul_def, hn, hsin, hcos]
    congr 1
    · linear_combination w * h
        + (w * (F.sin (angle * (1 / 2)) * F.sin (angle * (1 / 2)))) * hv
    · linear_combination x * h
        + (x * (F.sin (angle * (1 / 2)) * F.sin (angle * (1 / 2)))) * hv
    · linear_combination y * h
        + (y * (F.sin (angle * (1 / 2)) * F.sin (angle * (1 / 2)))) * hv
    · linear_combination z * h
        + (z * (F.sin (angle * (1 / 2)) * F.sin (angle * (1 / 2)))) * hv

/-- The rational `sin` and `cos` of `exactFns` lie on the unit circle. -/
theorem exactFns_sin_cos (x : ℚ) :
    exactFns.sin x * exactFns.sin x + exactFns.cos x * exactFns.cos x = 1 := by
  have hpos : 0 < 1 + x * x / 4 := by
    have := mul_self_nonneg x
    linarith
  have h : 1 + x * x / 4 ≠ 0 := ne_of_gt hpos
  show x / (1 + x * x / 4) * (x / (1 + x * x / 4))
    + (1 - x * x / 4) / (1 + x * x / 4) * ((1 - x * x / 4) / (1 + x * x / 4)) = 1
  rw [div_mul_div_comm, div_mul_div_comm, ← add_div, div_eq_one_iff_eq (mul_ne_zero h h)]
  ring

/-- The rational `sin` of `exactFns` is odd. -/
theorem exactFns_sin_neg (x : ℚ) : exactFns.sin (-x) = -exactFns.sin x := by
  simp only [exactFns]
  ring

/-- The rational `cos` of `exactFns` is even. -/
theorem exactFns_cos_neg (x : ℚ) : exactFns.cos (-x) = exactFns.cos x := by
  simp only [exactFns]
  ring

/-- C18. Turntable rotate preserves the pivot distance: for a camera frame with unit
orientation, any pivot and any `mouse_force`, with `sin² + cos² = 1`, one
TurntableRotate integrator step leaves `‖camera.position - turntable_origin‖` and
`turntable_origin` unchanged. -/
theorem turntable_rotate_keeps_pivot_distance (d : Deps R) (s : Navigation R)
    (hm : s.mode = mode_t.TURNTABLE_ROTATE)
    (hq : quatNormSq s.camera.frame.orientation = 1)
    (hsc : ∀ x : R, d.sin x * d.sin x + d.cos x * d.cos x = 1) :
    glm.length d.toFloatFns
        ((navigate d s).camera.frame.position - (navigate d s).turntable_origin)
      = glm.length d.toFloatFns (s.camera.frame.position - s.turntable_origin) ∧
    (navigate d s).turntable_origin = s.turntable_origin := by
  have hi : ¬ s.mode = mode_t.IDLE := by rw [hm]; decide
  have hright : glm.dot (s.camera.frame.orientation.rotate ⟨1, 0, 0⟩)
      (s.camera.frame.orientation.rotate ⟨1, 0, 0⟩) = 1 := by
    rw [dot_rotate _ _ hq]
    simp [glm.dot]
  have hz : glm.dot (⟨0, 0, 1⟩ : vec3 R) ⟨0, 0, 1⟩ = 1 := by simp [glm.dot]
  have hQ : quatNormSq
      (angleAxis d.toFloatFns (1 / 2 * -s.mouse_force.x) ⟨0, 0, 1⟩
        * angleAxis d.toFloatFns (1 / 2 * -s.mouse_force.y)
            (s.camera.frame.orientation.rotate ⟨1, 0, 0⟩)) = 1 := by
    rw [quatNormSq_mul, quatNormSq_angleAxis _ _ _ hsc hz,
      quatNormSq_angleAxis _ _ _ hsc hright, one_mul]
  have hnav : navigate d s =
      { s with
        camera := ⟨frame_t.mul
          ⟨s.turntable_origin,
            angleAxis d.toFloatFns (1 / 2 * -s.mouse_force.x) ⟨0, 0, 1⟩
              * angleAxis d.toFloatFns (1 / 2 * -s.mouse_force.y)
                  (s.camera.frame.orientation.rotate ⟨1, 0, 0⟩)⟩
          { s.camera.frame with position := s.camera.frame.position - s.turntable_origin }⟩
        mouse_force := vec2.splat 0 } := by
    rw [navigate, if_neg hi]
    simp only [hm]
  rw [hnav]
  refine ⟨?_, rfl⟩
  simp only [frame_t.mul, glm.length]
  rw [vec3_add_sub_cancel, dot_rotate _ _ hQ]

/-- An orbit step from (0, -5, 0) about the origin: the camera moves and stays at
distance 5. -/
theorem turntable_rotate_keeps_pivot_distance_witness :
    exactRotateStep.mode = mode_t.TURNTABLE_ROTATE ∧
    quatNormSq exactRotateStep.camera.frame.orientation = 1 ∧
    (navigate exactDeps exactRotateStep).camera.frame.position
      ≠ exactRotateStep.camera.frame.position ∧
    glm.length exactFns
        (exactRotateStep.camera.frame.position - exactRotateStep.turntable_origin) = 5 ∧
    glm.length exactFns
        ((navigate exactDeps exactRotateStep).camera.frame.position
          - (navigate exactDeps exactRotateStep).turntable_origin)
      = glm.length exactFns
          (exactRotateStep.camera.frame.position - exactRotateStep.turntable_origin) :=
  ⟨by decide, by decide!, by decide!, by decide!,
    (turntable_rotate_keeps_pivot_distance exactDeps exactRotateStep (by decide) (by decide!)
      exactFns_sin_cos).1⟩

/-- C19. FPS roll reversibility: for a camera frame with unit orientation and every `x`,
with `sin² + cos² = 1`, `sin` odd and `cos` even, `tilt_camera(x)` followed by
`tilt_camera(-x)` restores the orientation, neither call changes the position, and a
call composes onto the orientation `q` the rotation about the forward axis
`q * (0, 0, -1)` by the angle `x * 0.1 / (120 * pi)`. -/
theorem tilt_camera_reversible (d : Deps R) (s : Navigation R) (x : R)
    (hq : quatNormSq s.camera.frame.orientation = 1)
    (hsc : ∀ y : R, d.sin y * d.sin y + d.cos y * d.cos y = 1)
    (hsin : ∀ y : R, d.sin (-y) = -d.sin y) (hcos : ∀ y : R, d.cos (-y) = d.cos y) :
    (tilt_camera d (tilt_camera d s x) (-x)).camera.frame.orientation
      = s.camera.frame.orientation ∧
    (tilt_camera d s x).camera.frame.position = s.camera.frame.position ∧
    (tilt_camera d (tilt_camera d s x) (-x)).camera.frame.position
      = s.camera.frame.position ∧
    (tilt_camera d s x).camera.frame.orientation
      = angleAxis d.toFloatFns (x * (1 / 10) / (120 * d.pi))
          (s.camera.frame.orientation.rotate ⟨0, 0, -1⟩) * s.camera.frame.orientation := by
  have hf : glm.dot (s.camera.frame.orientation.rotate ⟨0, 0, -1⟩)
      (s.camera.frame.orientation.rotate ⟨0, 0, -1⟩) = 1 := by
    rw [dot_rotate _ _ hq]
    simp [glm.dot]
  have hr : quatNormSq (angleAxis d.toFloatFns (x * (1 / 10) / (120 * d.pi))
      (s.camera.frame.orientation.rotate ⟨0, 0, -1⟩)) = 1 :=
    quatNormSq_angleAxis _ _ _ hsc hf
  have hfwd : (angleAxis d.toFloatFns (x * (1 / 10) / (120 * d.pi))
        (s.camera.frame.orientation.rotate ⟨0, 0, -1⟩) * s.camera.frame.orientation).rotate
        ⟨0, 0, -1⟩
      = s.camera.frame.orientation.rotate ⟨0, 0, -1⟩ := by
    rw [rotate_mul _ _ _ hr hq, rotate_axis]
  have hang : -x * (1 / 10) / (120 * d.pi) = -(x * (1 / 10) / (120 * d.pi)) := by ring
  refine ⟨?_, rfl, rfl, rfl⟩
  show angleAxis d.toFloatFns (-x * (1 / 10) / (120 * d.pi))
      ((angleAxis d.toFloatFns (x * (1 / 10) / (120 * d.pi))
        (s.camera.frame.orientation.rotate ⟨0, 0, -1⟩) * s.camera.frame.orientation).rotate
        ⟨0, 0, -1⟩)
      * (angleAxis d.toFloatFns (x * (1 / 10) / (120 * d.pi))
        (s.camera.frame.orientation.rotate ⟨0, 0, -1⟩) * s.camera.frame.orientation)
      = s.camera.frame.orientation
  rw [hfwd, hang]
  exact angleAxis_neg_mul_cancel _ _ _ _ hsc hsin hcos hf

/-- A roll by one wheel detent and back: the orientation changes and comes back. -/
theorem tilt_camera_reversible_witness :
    quatNormSq exactFpsCamera.camera.frame.orientation = 1 ∧
    (tilt_camera exactDeps exactFpsCamera 120).camera.frame.orientation
      ≠ exactFpsCamera.camera.frame.orientation ∧
    (tilt_camera exactDeps (tilt_camera exactDeps exactFpsCamera 120) (-120)).camera.frame.orientation
      = exactFpsCamera.camera.frame.orientation :=
  ⟨by decide!, by decide!,
    (tilt_camera_reversible exactDeps exactFpsCamera 120 (by decide!) exactFns_sin_cos
      exactFns_sin_neg exactFns_cos_neg).1⟩

/-! ## Presses in FPS -/

/-- What `stopFpsNavigation` emits in FPS: a redraw request when the start frame is
restored, then the pivot notification and the redraw request of `disableMode`. -/
theorem stopFpsNavigation_emitted (s : Navigation R) (k : Bool) (hm : s.mode = mode_t.FPS) :
    (stopFpsNavigation s k).emitted =
      if k then
        s.emitted ++ [Effect.set_turntable_origin (find_best_turntable_origin s), Effect.update]
      else
        s.emitted ++ [Effect.update,
          Effect.set_turntable_origin
            (find_best_turntable_origin { s with camera := ⟨s.fps_start_frame⟩ }),
          Effect.update] := by
  cases k <;>
    simp [stopFpsNavigation, hm, find_best_turntable_origin]

/-- No press in FPS changes the pivot. -/
theorem mousePressEvent_fps_turntable_origin (d : Deps R) (s : Navigation R)
    (ev : QMouseEvent) (hm : s.mode = mode_t.FPS) :
    (mousePressEvent d s ev).turntable_origin = s.turntable_origin := by
  obtain ⟨x, y, button, mods, src⟩ := ev
  cases button <;> simp [mousePressEvent, hm] <;> (try split_ifs) <;> simp_all

/-- C20. In FPS a left-button press without modifiers at (x, y) sets the mode to Idle,
keeps the camera frame, and emits, after the pivot notification and the redraw request
of the stop, the signal `simpleLeftClick (x, y)` exactly once; a right-button press sets
the mode to Idle, restores `fps_start_frame` and emits a redraw request, the pivot
notification and a redraw request, no `simpleLeftClick`; no press changes
`turntable_origin`. -/
theorem left_press_in_fps_clicks (d : Deps R) (s : Navigation R) (ev : QMouseEvent)
    (x y : Int) (mods : Nat) (src : Qt.MouseEventSource) (hm : s.mode = mode_t.FPS) :
    ((mousePressEvent d s ⟨x, y, Qt.MouseButton.LeftButton, Qt.NoModifier, src⟩).mode
        = mode_t.IDLE ∧
      (mousePressEvent d s ⟨x, y, Qt.MouseButton.LeftButton, Qt.NoModifier, src⟩).camera.frame
        = s.camera.frame ∧
      (mousePressEvent d s ⟨x, y, Qt.MouseButton.LeftButton, Qt.NoModifier, src⟩).emitted
        = s.emitted ++ [Effect.set_turntable_origin (find_best_turntable_origin s),
            Effect.update, Effect.simpleLeftClick ⟨x, y⟩]) ∧
    ((mousePressEvent d s ⟨x, y, Qt.MouseButton.RightButton, mods, src⟩).mode = mode_t.IDLE ∧
      (mousePressEvent d s ⟨x, y, Qt.MouseButton.RightButton, mods, src⟩).camera.frame
        = s.fps_start_frame ∧
      (mousePressEvent d s ⟨x, y, Qt.MouseButton.RightButton, mods, src⟩).emitted
        = s.emitted ++ [Effect.update,
            Effect.set_turntable_origin
              (find_best_turntable_origin { s with camera := ⟨s.fps_start_frame⟩ }),
            Effect.update]) ∧
    (mousePressEvent d s ev).turntable_origin = s.turntable_origin := by
  refine ⟨⟨?_, ?_, ?_⟩, ⟨?_, ?_, ?_⟩, mousePressEvent_fps_turntable_origin d s ev hm⟩
  · simp [mousePressEvent, hm]
  · simp [mousePressEvent, hm]
  · simp [mousePressEvent, hm, stopFpsNavigation_emitted]
  · simp [mousePressEvent, hm]
  · simp [mousePressEvent, hm]
  · simp [mousePressEvent, hm, stopFpsNavigation_emitted]

/-- A left click at (400, 300) in the FPS state `exampleFps`. -/
theorem left_press_in_fps_clicks_witness :
    exampleFps.mode = mode_t.FPS ∧
    (mousePressEvent exampleDeps exampleFps exampleLeftPress).mode = mode_t.IDLE ∧
    (mousePressEvent exampleDeps exampleFps exampleLeftPress).emitted
      = exampleFps.emitted ++ [Effect.set_turntable_origin (find_best_turntable_origin exampleFps),
          Effect.update, Effect.simpleLeftClick ⟨400, 300⟩] :=
  ⟨by decide,
    (left_press_in_fps_clicks exampleDeps exampleFps exampleLeftPress 400 300 0
      Qt.MouseEventSource.MouseEventNotSynthesized (by decide)).1.1,
    (left_press_in_fps_clicks exampleDeps exampleFps exampleLeftPress 400 300 0
      Qt.MouseEventSource.MouseEventNotSynthesized (by decide)).1.2.2⟩

end

end PointcloudViewer
